import Mathlib

/-!
Verification of the ormar QuerySet engine, embedded from
src/ormar/queryset/queryset.py.  Python lists and dicts held by a QuerySet are
mutable heap objects; to reason about aliasing between parent and child
descriptors the embedding threads an explicit store of containers and lets a
QuerySet hold references (indices) into that store.  Collaborator modules that
are not part of the analysed source (ormar.queryset.clause, ormar.queryset.query,
ormar.queryset.utils, the Model row/merge entry points) are modelled from the
specification; each such definition carries a doc comment starting with
"Modelled from the spec:".
-/

/-- Comparison operator tokens of filter clauses.  The per-operator SQL
fragment compiler is an external collaborator (spec section 1 and 6); values are
modelled as integers, so only the integer-meaningful operator tokens are kept.  -/
inductive FilterOp where
  | exact
  | gt
  | gte
  | lt
  | lte
  deriving DecidableEq

/-- A prepared filter clause: relation path crossed by the field path, the
target column key, an operator token and a literal value. -/
structure Clause where
  relPath : List String
  col : String
  op : FilterOp
  value : Int
  deriving DecidableEq

/-- A database result row: a mapping from output column alias to scalar value. -/
abbrev Row := List (String × Int)

/-- Value of a column in a row, defaulting to 0 for an absent column. -/
def Row.lookupD (row : Row) (k : String) : Int :=
  (List.lookup k row).getD 0

/-- Modelled from the spec: evaluation of one compiled clause fragment on a row
(the clause compiler itself is an external collaborator, spec section 6). -/
def FilterOp.eval : FilterOp → Int → Int → Bool
  | FilterOp.exact, a, b => decide (a = b)
  | FilterOp.gt, a, b => decide (b < a)
  | FilterOp.gte, a, b => decide (b ≤ a)
  | FilterOp.lt, a, b => decide (a < b)
  | FilterOp.lte, a, b => decide (a ≤ b)

/-- Aliased output column name addressed by a clause. -/
def Clause.columnKey (c : Clause) : String :=
  String.intercalate "__" (c.relPath ++ [c.col])

/-- Truth of one clause on one row. -/
def Clause.evalRow (c : Clause) (row : Row) : Bool :=
  c.op.eval (row.lookupD c.columnKey) c.value

/-- Modelled from the spec: the recursive column mask gathered by fields and
exclude_fields, a sum of a leaf field and a mapping from relation name to a
nested mask (spec section 9, "Nested field masks"). -/
inductive Mask where
  | leaf : Mask
  | group : List (String × Mask) → Mask

/-- A column mask dictionary as held by a QuerySet. -/
abbrev MaskDict := List (String × Mask)

mutual

/-- Modelled from the spec: union of two masks, the updating mask merged into
the current one (ormar.queryset.utils.update is not under src/; spec section
4.1: repeated fields calls accumulate rather than replace). -/
def mergeMask : Mask → Mask → Mask
  | Mask.group a, Mask.group b => Mask.group (mergeDict a b)
  | _, m2 => m2
termination_by m1 m2 => (sizeOf m2, 0, 0)

/-- Modelled from the spec: union of two mask dictionaries, entries of the
updating dictionary folded into the current one. -/
def mergeDict : MaskDict → MaskDict → MaskDict
  | cur, [] => cur
  | cur, (k, v) :: rest => mergeDict (setKey cur k v) rest
termination_by cur l => (sizeOf l, 2, 0)

/-- Modelled from the spec: set one key of a mask dictionary, merging
recursively when the key is already present. -/
def setKey : MaskDict → String → Mask → MaskDict
  | [], k, v => [(k, v)]
  | (k0, v0) :: rest, k, v =>
    if k0 = k then (k0, mergeMask v0 v) :: rest
    else (k0, v0) :: setKey rest k v
termination_by cur k v => (sizeOf v, 1, sizeOf cur)

end

/-- Modelled from the spec: the nested mask denoted by one dunder-separated
field path. -/
def maskFromPath : List String → Mask
  | [] => Mask.leaf
  | p :: rest => Mask.group [(p, maskFromPath rest)]

/-- Modelled from the spec: the mask entry denoted by one field name, splitting
a dunder path into nesting. -/
def entryFromName (n : String) : String × Mask :=
  match n.splitOn "__" with
  | [] => (n, Mask.leaf)
  | p :: rest => (p, maskFromPath rest)

/-- Modelled from the spec: ormar.queryset.utils.update_dict_from_list, merging
a list of field names into a mask dictionary. -/
def update_dict_from_list (current : MaskDict) (names : List String) : MaskDict :=
  mergeDict current (names.map entryFromName)

/-- The store of mutable Python containers reachable from descriptors: lists of
filter clauses, lists of strings and mask dictionaries.  A reference is an index
into the respective component. -/
structure Store where
  clauseLists : List (List Clause)
  strLists : List (List String)
  maskDicts : List MaskDict

/-- Contents of a clause-list reference. -/
def Store.getClauses (st : Store) (r : Nat) : List Clause :=
  st.clauseLists.getD r []

/-- Contents of a string-list reference. -/
def Store.getStrs (st : Store) (r : Nat) : List String :=
  st.strLists.getD r []

/-- Contents of a mask-dictionary reference. -/
def Store.getMask (st : Store) (r : Nat) : MaskDict :=
  st.maskDicts.getD r []

/-- Allocate a fresh clause list. -/
def Store.allocClauses (st : Store) (l : List Clause) : Nat × Store :=
  (st.clauseLists.length, { st with clauseLists := st.clauseLists ++ [l] })

/-- Allocate a fresh string list. -/
def Store.allocStrs (st : Store) (l : List String) : Nat × Store :=
  (st.strLists.length, { st with strLists := st.strLists ++ [l] })

/-- Allocate a fresh mask dictionary. -/
def Store.allocMask (st : Store) (d : MaskDict) : Nat × Store :=
  (st.maskDicts.length, { st with maskDicts := st.maskDicts ++ [d] })

/-- The empty store. -/
def Store.empty : Store := ⟨[], [], []⟩

/-- The schema descriptor of a model as consumed from the metaclass collaborator
(spec section 6): primary key name, own database field names, related field
names and the field-to-column alias translation. -/
structure ModelMeta where
  pkname : String
  ownFields : List String
  relatedNames : List String
  aliases : List (String × String)
  deriving DecidableEq

/-- Modelled from the spec: Model.get_column_alias, the alias translation for
one field name, defaulting to the field name itself. -/
def ModelMeta.get_column_alias (m : ModelMeta) (f : String) : String :=
  (List.lookup f m.aliases).getD f

/-- The query descriptor of queryset.py: the bound model and references to the
mutable containers plus the immutable scalars held by QuerySet.__init__. -/
structure QuerySet where
  model_cls : ModelMeta
  filter_clauses : Nat
  exclude_clauses : Nat
  select_related : Nat
  prefetch_related : Nat
  limit_count : Option Nat
  query_offset : Option Nat
  columns : Nat
  exclude_columns : Nat
  order_bys : Nat
  limit_sql_raw : Bool
  deriving DecidableEq

/-- Handling of a clause-list argument in QuerySet.__init__: a None argument
allocates a fresh empty list, a passed list object is stored as-is (aliased). -/
def stepClauses (p : Option Nat) (st : Store) : Nat × Store :=
  match p with
  | some r => (r, st)
  | none => st.allocClauses []

/-- Handling of a string-list argument in QuerySet.__init__ under the
None-check default: aliased when passed, fresh when None. -/
def stepStrs (p : Option Nat) (st : Store) : Nat × Store :=
  match p with
  | some r => (r, st)
  | none => st.allocStrs []

/-- Handling of a mask argument in QuerySet.__init__ under the Python
or-default: an absent or empty (falsy) dictionary is replaced by a fresh empty
one, a non-empty dictionary is stored as-is (aliased). -/
def stepMaskOr (p : Option Nat) (st : Store) : Nat × Store :=
  match p with
  | some r => if (st.getMask r).isEmpty then st.allocMask [] else (r, st)
  | none => st.allocMask []

/-- Handling of the order_bys argument in QuerySet.__init__ under the Python
or-default: an absent or empty (falsy) list is replaced by a fresh empty one,
a non-empty list is stored as-is (aliased). -/
def stepStrsOr (p : Option Nat) (st : Store) : Nat × Store :=
  match p with
  | some r => if (st.getStrs r).isEmpty then st.allocStrs [] else (r, st)
  | none => st.allocStrs []

/-- QuerySet.__init__: a None container argument allocates a fresh empty
container; a passed list is stored as-is (aliased), while a passed columns,
exclude_columns or order_bys container that is empty is falsy under the
Python or-defaults and is replaced by a fresh empty container. -/
def initQuerySet (st : Store) (model_cls : ModelMeta)
    (filter_clauses exclude_clauses select_related : Option Nat)
    (limit_count offset : Option Nat)
    (columns exclude_columns order_bys prefetch_related : Option Nat)
    (limit_raw_sql : Bool) : QuerySet × Store :=
  let p1 := stepClauses filter_clauses st
  let p2 := stepClauses exclude_clauses p1.2
  let p3 := stepStrs select_related p2.2
  let p4 := stepStrs prefetch_related p3.2
  let p5 := stepMaskOr columns p4.2
  let p6 := stepMaskOr exclude_columns p5.2
  let p7 := stepStrsOr order_bys p6.2
  (⟨model_cls, p1.1, p2.1, p3.1, p4.1, limit_count, offset, p5.1, p6.1, p7.1,
    limit_raw_sql⟩, p7.2)

/-- QuerySet.__get__: accessing the query entry point on a model type builds a
descriptor with every container freshly allocated. -/
def rootQuerySet (st : Store) (owner : ModelMeta) : QuerySet × Store :=
  initQuerySet st owner none none none none none none none none none false

/-- Modelled from the spec: ormar.queryset.clause.QueryClause.prepare_filter is
not under src/.  Per spec section 4.1 the call turns the keyword mapping into
prepared clauses combined with the current filter clauses, and may implicitly
extend the select-related set when a field path crosses a relation; it returns
fresh containers. -/
def prepareFilter (selectRelated : List String) (filterClauses : List Clause)
    (kwargs : List Clause) : List Clause × List String :=
  (filterClauses ++ kwargs,
    (selectRelated ++ kwargs.filterMap (fun c =>
      if c.relPath.isEmpty then none
      else some (String.intercalate "__" c.relPath))).eraseDups)

/-- QuerySet.filter: prepares the clauses from the keyword arguments, routes
them into the filter-clause or the exclude-clause slot depending on the
exclusion flag, and rebuilds a descriptor through QuerySet.__init__. -/
def QuerySet.filter (qs : QuerySet) (st : Store) (excludeFlag : Bool)
    (kwargs : List Clause) : QuerySet × Store :=
  let prepared := prepareFilter (st.getStrs qs.select_related)
    (st.getClauses qs.filter_clauses) kwargs
  let a1 := st.allocClauses prepared.1
  let a2 := a1.2.allocStrs prepared.2
  let fcRef := if excludeFlag then qs.filter_clauses else a1.1
  let ecRef := if excludeFlag then a1.1 else qs.exclude_clauses
  initQuerySet a2.2 qs.model_cls (some fcRef) (some ecRef) (some a2.1)
    qs.limit_count qs.query_offset (some qs.columns) (some qs.exclude_columns)
    (some qs.order_bys) (some qs.prefetch_related) qs.limit_sql_raw

/-- QuerySet.exclude: filter with the exclusion flag set. -/
def QuerySet.exclude (qs : QuerySet) (st : Store) (kwargs : List Clause) :
    QuerySet × Store :=
  qs.filter st true kwargs

/-- QuerySet.select_related: unions the given relation paths into the
select-related set (the Python list-of-set drops duplicates) and rebuilds the
descriptor. -/
def QuerySet.selectRelated (qs : QuerySet) (st : Store) (related : List String) :
    QuerySet × Store :=
  let newRel := (st.getStrs qs.select_related ++ related).eraseDups
  let a1 := st.allocStrs newRel
  initQuerySet a1.2 qs.model_cls (some qs.filter_clauses)
    (some qs.exclude_clauses) (some a1.1) qs.limit_count qs.query_offset
    (some qs.columns) (some qs.exclude_columns) (some qs.order_bys)
    (some qs.prefetch_related) qs.limit_sql_raw

/-- QuerySet.prefetch_related: unions the given relation paths into the
prefetch-related set and rebuilds the descriptor. -/
def QuerySet.prefetchRelated (qs : QuerySet) (st : Store)
    (related : List String) : QuerySet × Store :=
  let newRel := (st.getStrs qs.prefetch_related ++ related).eraseDups
  let a1 := st.allocStrs newRel
  initQuerySet a1.2 qs.model_cls (some qs.filter_clauses)
    (some qs.exclude_clauses) (some qs.select_related) qs.limit_count
    qs.query_offset (some qs.columns) (some qs.exclude_columns)
    (some qs.order_bys) (some a1.1) qs.limit_sql_raw

/-- Argument shape of fields and exclude_fields: a list of names (a single
string becomes a one-element list) or a nested mask dictionary. -/
inductive MaskArg where
  | names : List String → MaskArg
  | dict : MaskDict → MaskArg

/-- QuerySet.fields: merges the requested columns into the inclusion mask and
rebuilds the descriptor. -/
def QuerySet.fields (qs : QuerySet) (st : Store) (columns : MaskArg) :
    QuerySet × Store :=
  let current := st.getMask qs.columns
  let included := match columns with
    | MaskArg.names l => update_dict_from_list current l
    | MaskArg.dict d => mergeDict current d
  let a1 := st.allocMask included
  initQuerySet a1.2 qs.model_cls (some qs.filter_clauses)
    (some qs.exclude_clauses) (some qs.select_related) qs.limit_count
    qs.query_offset (some a1.1) (some qs.exclude_columns) (some qs.order_bys)
    (some qs.prefetch_related) qs.limit_sql_raw

/-- QuerySet.exclude_fields: merges the requested columns into the exclusion
mask and rebuilds the descriptor. -/
def QuerySet.exclude_fields (qs : QuerySet) (st : Store) (columns : MaskArg) :
    QuerySet × Store :=
  let current := st.getMask qs.exclude_columns
  let excluded := match columns with
    | MaskArg.names l => update_dict_from_list current l
    | MaskArg.dict d => mergeDict current d
  let a1 := st.allocMask excluded
  initQuerySet a1.2 qs.model_cls (some qs.filter_clauses)
    (some qs.exclude_clauses) (some qs.select_related) qs.limit_count
    qs.query_offset (some qs.columns) (some a1.1) (some qs.order_bys)
    (some qs.prefetch_related) qs.limit_sql_raw

/-- QuerySet.order_by: appends the given sort paths, skipping any path already
present in the current list, and rebuilds the descriptor. -/
def QuerySet.order_by (qs : QuerySet) (st : Store) (columns : List String) :
    QuerySet × Store :=
  let old := st.getStrs qs.order_bys
  let newOrd := old ++ columns.filter (fun x => decide (x ∉ old))
  let a1 := st.allocStrs newOrd
  initQuerySet a1.2 qs.model_cls (some qs.filter_clauses)
    (some qs.exclude_clauses) (some qs.select_related) qs.limit_count
    qs.query_offset (some qs.columns) (some qs.exclude_columns) (some a1.1)
    (some qs.prefetch_related) qs.limit_sql_raw

/-- QuerySet.limit: sets the row limit and the raw-row-count flag, every
container handed through to QuerySet.__init__ unchanged. -/
def QuerySet.limit (qs : QuerySet) (st : Store) (limit_count : Nat)
    (limit_raw_sql : Option Bool) : QuerySet × Store :=
  let raw := limit_raw_sql.getD qs.limit_sql_raw
  initQuerySet st qs.model_cls (some qs.filter_clauses)
    (some qs.exclude_clauses) (some qs.select_related) (some limit_count)
    qs.query_offset (some qs.columns) (some qs.exclude_columns)
    (some qs.order_bys) (some qs.prefetch_related) raw

/-- QuerySet.offset: sets the row offset and the raw-row-count flag, every
container handed through to QuerySet.__init__ unchanged. -/
def QuerySet.offset (qs : QuerySet) (st : Store) (off : Nat)
    (limit_raw_sql : Option Bool) : QuerySet × Store :=
  let raw := limit_raw_sql.getD qs.limit_sql_raw
  initQuerySet st qs.model_cls (some qs.filter_clauses)
    (some qs.exclude_clauses) (some qs.select_related) qs.limit_count
    (some off) (some qs.columns) (some qs.exclude_columns)
    (some qs.order_bys) (some qs.prefetch_related) raw

/-- One fluent builder call with its arguments. -/
inductive BuilderCall where
  | filterC : List Clause → BuilderCall
  | excludeC : List Clause → BuilderCall
  | selectRelatedC : List String → BuilderCall
  | prefetchRelatedC : List String → BuilderCall
  | fieldsC : MaskArg → BuilderCall
  | excludeFieldsC : MaskArg → BuilderCall
  | orderByC : List String → BuilderCall
  | limitC : Nat → Option Bool → BuilderCall
  | offsetC : Nat → Option Bool → BuilderCall

/-- Dispatch of one fluent builder call on a descriptor. -/
def applyCall (call : BuilderCall) (qs : QuerySet) (st : Store) :
    QuerySet × Store :=
  match call with
  | BuilderCall.filterC kwargs => qs.filter st false kwargs
  | BuilderCall.excludeC kwargs => qs.exclude st kwargs
  | BuilderCall.selectRelatedC related => qs.selectRelated st related
  | BuilderCall.prefetchRelatedC related => qs.prefetchRelated st related
  | BuilderCall.fieldsC columns => qs.fields st columns
  | BuilderCall.excludeFieldsC columns => qs.exclude_fields st columns
  | BuilderCall.orderByC columns => qs.order_by st columns
  | BuilderCall.limitC n raw => qs.limit st n raw
  | BuilderCall.offsetC n raw => qs.offset st n raw

/-- Chained application of a sequence of fluent builder calls. -/
def applySeq : List BuilderCall → QuerySet → Store → QuerySet × Store
  | [], qs, st => (qs, st)
  | call :: rest, qs, st =>
    let p := applyCall call qs st
    applySeq rest p.1 p.2

/-- The observable state of a descriptor: the contents of every container it
references together with its scalar fields. -/
structure Observation where
  obsFilterClauses : List Clause
  obsExcludeClauses : List Clause
  obsSelectRelated : List String
  obsPrefetchRelated : List String
  obsColumns : MaskDict
  obsExcludeColumns : MaskDict
  obsOrderBys : List String
  obsLimitCount : Option Nat
  obsQueryOffset : Option Nat
  obsLimitSqlRaw : Bool

/-- Observe a descriptor in a store. -/
def QuerySet.observe (qs : QuerySet) (st : Store) : Observation :=
  ⟨st.getClauses qs.filter_clauses, st.getClauses qs.exclude_clauses,
    st.getStrs qs.select_related, st.getStrs qs.prefetch_related,
    st.getMask qs.columns, st.getMask qs.exclude_columns,
    st.getStrs qs.order_bys, qs.limit_count, qs.query_offset, qs.limit_sql_raw⟩

/-- All container references of a descriptor point inside the store. -/
def QuerySet.validRefs (qs : QuerySet) (st : Store) : Prop :=
  qs.filter_clauses < st.clauseLists.length ∧
  qs.exclude_clauses < st.clauseLists.length ∧
  qs.select_related < st.strLists.length ∧
  qs.prefetch_related < st.strLists.length ∧
  qs.order_bys < st.strLists.length ∧
  qs.columns < st.maskDicts.length ∧
  qs.exclude_columns < st.maskDicts.length

instance (qs : QuerySet) (st : Store) : Decidable (qs.validRefs st) := by
  unfold QuerySet.validRefs; infer_instance

/-- The second store extends the first: existing containers are untouched, new
ones may have been appended. -/
def Store.grows (st st' : Store) : Prop :=
  (∃ t, st'.clauseLists = st.clauseLists ++ t) ∧
  (∃ t, st'.strLists = st.strLists ++ t) ∧
  (∃ t, st'.maskDicts = st.maskDicts ++ t)

/-- Every container of the child descriptor is either the parent's container
(aliased) or a container freshly allocated during the call. -/
def childRefsOk (qs c : QuerySet) (st : Store) : Prop :=
  (c.filter_clauses = qs.filter_clauses ∨
    st.clauseLists.length ≤ c.filter_clauses) ∧
  (c.exclude_clauses = qs.exclude_clauses ∨
    st.clauseLists.length ≤ c.exclude_clauses) ∧
  (c.select_related = qs.select_related ∨
    st.strLists.length ≤ c.select_related) ∧
  (c.prefetch_related = qs.prefetch_related ∨
    st.strLists.length ≤ c.prefetch_related) ∧
  (c.order_bys = qs.order_bys ∨ st.strLists.length ≤ c.order_bys) ∧
  (c.columns = qs.columns ∨ st.maskDicts.length ≤ c.columns) ∧
  (c.exclude_columns = qs.exclude_columns ∨
    st.maskDicts.length ≤ c.exclude_columns)

/-- The distinguishable failure kinds raised by the engine: NoMatch,
MultipleMatches, QueryDefinitionError and ModelPersistenceError. -/
inductive Err where
  | noMatch
  | multipleMatches
  | queryDefinition
  | persistence
  deriving DecidableEq

instance {e a : Type} [DecidableEq e] [DecidableEq a] :
    DecidableEq (Except e a) := fun x y =>
  match x, y with
  | Except.ok v, Except.ok w =>
    decidable_of_iff (v = w) ⟨fun h => by rw [h], fun h => Except.ok.inj h⟩
  | Except.error v, Except.error w =>
    decidable_of_iff (v = w) ⟨fun h => by rw [h], fun h => Except.error.inj h⟩
  | Except.ok _, Except.error _ => isFalse (fun h => Except.noConfusion h)
  | Except.error _, Except.ok _ => isFalse (fun h => Except.noConfusion h)

/-- Python or-default on an optional integer argument: None and 0 are falsy
and fall through to the descriptor's own value. -/
def pyOrNat (p : Option Nat) (own : Option Nat) : Option Nat :=
  match p with
  | some n => if n = 0 then own else some n
  | none => own

/-- Python or-default on an optional list argument: None and the empty list
are falsy and fall through to the descriptor's own value. -/
def pyOrList (p : Option (List String)) (own : List String) : List String :=
  match p with
  | some l => if l.isEmpty then own else l
  | none => own

/-- The compiled select form handed to the external expression compiler: the
parameters QuerySet.build_select_expression passes to Query. -/
structure SelectExpr where
  selFilters : List Clause
  selExcludes : List Clause
  selRelated : List String
  selLimit : Option Nat
  selOffset : Option Nat
  selFields : MaskDict
  selExcludeFields : MaskDict
  selOrderBys : List String
  selLimitRaw : Bool
  deriving Inhabited

/-- QuerySet.build_select_expression: any argument not passed falls back to
the descriptor's own value under the Python or-defaults. -/
def QuerySet.build_select_expression (qs : QuerySet) (st : Store)
    (limit offset : Option Nat) (order_bys : Option (List String)) :
    SelectExpr :=
  ⟨st.getClauses qs.filter_clauses, st.getClauses qs.exclude_clauses,
    st.getStrs qs.select_related, pyOrNat limit qs.limit_count,
    pyOrNat offset qs.query_offset, st.getMask qs.columns,
    st.getMask qs.exclude_columns,
    pyOrList order_bys (st.getStrs qs.order_bys), qs.limit_sql_raw⟩

/-- Modelled from the spec: the WHERE semantics of the compiled expression
(ormar.queryset.query.Query and FilterQuery are not under src/).  Spec section
4.2: the filter clauses are ANDed and the exclude clauses contribute
NOT(AND of exclude clauses); with no exclude clauses no NOT wrapper is
emitted. -/
def SelectExpr.rowMatches (e : SelectExpr) (row : Row) : Bool :=
  e.selFilters.all (fun c => c.evalRow row) &&
    (e.selExcludes.isEmpty || !(e.selExcludes.all (fun c => c.evalRow row)))

/-- Modelled from the spec: a sort specification is a field path with an
optional leading hyphen signalling descending order. -/
def parseSpec (s : String) : Bool × String :=
  match s.data with
  | '-' :: rest => (true, String.mk rest)
  | _ => (false, s)

/-- Modelled from the spec: lexicographic row comparison along the ordered
sort specifications, honoring the descending marker. -/
def specLe (specs : List String) (r1 r2 : Row) : Bool :=
  match specs with
  | [] => true
  | s :: rest =>
    if r1.lookupD (parseSpec s).2 = r2.lookupD (parseSpec s).2 then
      specLe rest r1 r2
    else if (parseSpec s).1 then
      decide (r2.lookupD (parseSpec s).2 < r1.lookupD (parseSpec s).2)
    else decide (r1.lookupD (parseSpec s).2 < r2.lookupD (parseSpec s).2)

/-- The sort order of a compiled expression as a binary relation on rows. -/
def rowLe (specs : List String) (r1 r2 : Row) : Prop :=
  specLe specs r1 r2 = true

instance (specs : List String) : DecidableRel (rowLe specs) := by
  unfold rowLe; infer_instance

/-- Modelled from the spec: execution of a compiled select expression against
a table of physical rows — the async fetch interface of the database
collaborator.  The matching rows are sorted by the order specifications and
the offset and limit are applied to the returned rows (with no to-many
fan-out the logical and the physical bound coincide). -/
def fetchAll (table : List Row) (e : SelectExpr) : List Row :=
  let matched := table.filter (fun row => e.rowMatches row)
  let sorted := List.insertionSort (rowLe e.selOrderBys) matched
  let offsetRows := sorted.drop (e.selOffset.getD 0)
  match e.selLimit with
  | some n => offsetRows.take n
  | none => offsetRows

/-- A reconstituted model instance: its primary key and its row of field
values (nested to-many collections are outside the analysed claims). -/
structure Inst where
  pk : Option Int
  instFields : Row
  deriving DecidableEq

/-- Modelled from the spec: Model.from_row, constructing the root instance of
one physical row keyed by its primary key column; a row without the primary
key column yields no instance. -/
def fromRow (meta : ModelMeta) (row : Row) : Option Inst :=
  match List.lookup meta.pkname row with
  | some v => some ⟨some v, row⟩
  | none => none

/-- Key by which root instances are merged. -/
def instKey : Option Inst → Option Int
  | some i => i.pk
  | none => none

/-- The merge loop: keep an instance when its key was not seen yet, drop the
later duplicates of an already-seen key. -/
def mergeLoop (seen : List (Option Int)) : List (Option Inst) → List (Option Inst)
  | [] => []
  | x :: xs =>
    if instKey x ∈ seen then mergeLoop seen xs
    else x :: mergeLoop (instKey x :: seen) xs

/-- Modelled from the spec: Model.merge_instances_list, folding duplicate
physical rows of one root entity into the first-seen instance; the output
keeps the order of first appearance of each distinct primary key. -/
def mergeInstancesList (l : List (Option Inst)) : List (Option Inst) :=
  mergeLoop [] l

/-- QuerySet._process_query_result_rows: construct an instance from every row
and merge the duplicates when the result is non-empty. -/
def processQueryResultRows (meta : ModelMeta) (rows : List Row) :
    List (Option Inst) :=
  let result_rows := rows.map (fromRow meta)
  if result_rows.isEmpty then result_rows else mergeInstancesList result_rows

/-- QuerySet.check_single_result_rows_count: NoMatch when the result is empty
or its first element is no instance, MultipleMatches when there is more than
one result. -/
def checkSingleResultRowsCount (rows : List (Option Inst)) : Option Err :=
  if rows.isEmpty ∨ rows.head? = some none then some Err.noMatch
  else if 1 < rows.length then some Err.multipleMatches
  else none

/-- Modelled from the spec: QuerySet._prefetch_related_models attaches the
separately fetched relations into the already-built object graph; the root
instances themselves are returned unchanged (spec section 4.3). -/
def prefetchRelatedModels (models : List (Option Inst)) (rows : List Row) :
    List (Option Inst) :=
  models

/-- The tail every single-result operation shares: run the single-result check
and return the first instance. -/
def checkAndExtract (rows : List (Option Inst)) : Except Err Inst :=
  match checkSingleResultRowsCount rows with
  | some e => Except.error e
  | none =>
    match rows.head? with
    | some (some i) => Except.ok i
    | _ => Except.error Err.noMatch

/-- The select expression QuerySet.get builds when no filter clause is set:
limit 1, ordered by the primary key descending prepended to the descriptor's
own ordering. -/
def QuerySet.getNoFilterExpr (qs : QuerySet) (st : Store) : SelectExpr :=
  qs.build_select_expression st (some 1) none
    (some (("-" ++ qs.model_cls.pkname) :: st.getStrs qs.order_bys))

/-- The select expression QuerySet.first builds: limit 1, ordered by the
primary key ascending prepended to the descriptor's own ordering. -/
def QuerySet.firstExpr (qs : QuerySet) (st : Store) : SelectExpr :=
  qs.build_select_expression st (some 1) none
    (some (qs.model_cls.pkname :: st.getStrs qs.order_bys))

/-- The common read tail of get and first: fetch, reconstitute, merge,
prefetch if requested, then run the single-result check. -/
def QuerySet.singleResultPipeline (qs : QuerySet) (st : Store)
    (e : SelectExpr) (table : List Row) : Except Err Inst :=
  let rows := fetchAll table e
  let processed := processQueryResultRows qs.model_cls rows
  let processed :=
    if ¬(st.getStrs qs.prefetch_related).isEmpty ∧ ¬processed.isEmpty then
      prefetchRelatedModels processed rows
    else processed
  checkAndExtract processed

/-- QuerySet.get without keyword criteria: with no filter clause the query is
compiled with limit 1 ordered by primary key descending, otherwise the plain
descriptor expression is used. -/
def QuerySet.getRun (qs : QuerySet) (st : Store) (table : List Row) :
    Except Err Inst :=
  let e := if (st.getClauses qs.filter_clauses).isEmpty then
      qs.getNoFilterExpr st
    else qs.build_select_expression st none none none
  qs.singleResultPipeline st e table

/-- QuerySet.get: keyword criteria are folded in through filter first. -/
def QuerySet.get (qs : QuerySet) (st : Store) (kwargs : List Clause)
    (table : List Row) : Except Err Inst :=
  if kwargs.isEmpty then qs.getRun st table
  else
    let p := qs.filter st false kwargs
    p.1.getRun p.2 table

/-- QuerySet.first without keyword criteria: always limit 1 ordered by the
primary key ascending. -/
def QuerySet.firstRun (qs : QuerySet) (st : Store) (table : List Row) :
    Except Err Inst :=
  qs.singleResultPipeline st (qs.firstExpr st) table

/-- QuerySet.first: keyword criteria are folded in through filter first. -/
def QuerySet.first (qs : QuerySet) (st : Store) (kwargs : List Clause)
    (table : List Row) : Except Err Inst :=
  if kwargs.isEmpty then qs.firstRun st table
  else
    let p := qs.filter st false kwargs
    p.1.firstRun p.2 table

/-- An exact-match clause built from one keyword field-value pair. -/
def mkExactClause (kv : String × Int) : Clause :=
  ⟨[], kv.1, FilterOp.exact, kv.2⟩

/-- Modelled from the spec: the generated primary key returned by the insert
round trip of the database collaborator (autoincrement). -/
def genPk (meta : ModelMeta) (table : List Row) : Int :=
  (table.filterMap (fun row => List.lookup meta.pkname row)).foldl max 0 + 1

/-- QuerySet.create: insert one row built from the keyword values and
back-fill the generated primary key.  Modelled from the spec where it leans on
collaborators: prepare_model_to_save, the pre/post-save signal dispatch and
the server-default reload are outside src/ and do not change the inserted
row here. -/
def QuerySet.create (qs : QuerySet) (kwargs : List (String × Int))
    (table : List Row) : Inst × List Row :=
  let pkname := qs.model_cls.pkname
  let row := match List.lookup pkname kwargs with
    | some _ => kwargs
    | none => kwargs ++ [(pkname, genPk qs.model_cls table)]
  (⟨List.lookup pkname row, row⟩, table ++ [row])

/-- QuerySet.get_or_create: try get with the keyword criteria; only the
NoMatch failure is converted into a create with the same arguments, every
other outcome is passed through untouched. -/
def QuerySet.get_or_create (qs : QuerySet) (st : Store)
    (kwargs : List (String × Int)) (table : List Row) :
    Except Err Inst × List Row :=
  match qs.get st (kwargs.map mkExactClause) table with
  | Except.ok i => (Except.ok i, table)
  | Except.error Err.noMatch =>
    let p := qs.create kwargs table
    (Except.ok p.1, p.2)
  | Except.error e => (Except.error e, table)

/-- Modelled from the spec: FilterQuery application — the filter clauses are
ANDed onto a mutating statement; with no clauses no WHERE is emitted and every
row matches. -/
def filterMatches (clauses : List Clause) (row : Row) : Bool :=
  clauses.all (fun c => c.evalRow row)

/-- Overwrite the columns named by the update values in one row. -/
def applyUpdates (updates : List (String × Int)) (row : Row) : Row :=
  row.map (fun kv =>
    match List.lookup kv.1 updates with
    | some v => (kv.1, v)
    | none => kv)

/-- Outcome of a mutating bulk statement: the returned value or error, the
table afterwards, and how many execute round trips were issued. -/
structure MutationResult where
  mutResult : Except Err Nat
  mutTable : List Row
  mutExecutes : Nat
  deriving DecidableEq

/-- The update values a QuerySet.update call sends: keyword arguments
restricted to the model's own database fields and related names, then
translated to column aliases. -/
def QuerySet.updateValues (qs : QuerySet) (kwargs : List (String × Int)) :
    List (String × Int) :=
  let self_fields := qs.model_cls.ownFields ++ qs.model_cls.relatedNames
  let updates := kwargs.filter (fun kv => decide (kv.1 ∈ self_fields))
  updates.map (fun kv => (qs.model_cls.get_column_alias kv.1, kv.2))

/-- QuerySet.update: build the update values, fail with QueryDefinitionError
before any round trip when no filter is set and the each override is not
given, otherwise apply the update to every row matching the filter clauses. -/
def QuerySet.update (qs : QuerySet) (st : Store) (each : Bool)
    (kwargs : List (String × Int)) (table : List Row) : MutationResult :=
  let updates := qs.updateValues kwargs
  if ¬each ∧ (st.getClauses qs.filter_clauses).isEmpty then
    ⟨Except.error Err.queryDefinition, table, 0⟩
  else
    let clauses := st.getClauses qs.filter_clauses
    ⟨Except.ok (table.filter (fun row => filterMatches clauses row)).length,
      table.map (fun row =>
        if filterMatches clauses row then applyUpdates updates row else row),
      1⟩

/-- QuerySet.delete without keyword criteria: fail with QueryDefinitionError
before any round trip when no filter is set and the each override is not
given, otherwise delete every row matching the filter clauses. -/
def QuerySet.deleteRun (qs : QuerySet) (st : Store) (each : Bool)
    (table : List Row) : MutationResult :=
  if ¬each ∧ (st.getClauses qs.filter_clauses).isEmpty then
    ⟨Except.error Err.queryDefinition, table, 0⟩
  else
    let clauses := st.getClauses qs.filter_clauses
    ⟨Except.ok (table.filter (fun row => filterMatches clauses row)).length,
      table.filter (fun row => !(filterMatches clauses row)), 1⟩

/-- QuerySet.delete: keyword criteria are folded in through filter and the
call recurses without them (the source drops the each flag in that branch). -/
def QuerySet.delete (qs : QuerySet) (st : Store) (each : Bool)
    (kwargs : List Clause) (table : List Row) : MutationResult :=
  if ¬kwargs.isEmpty then
    let p := qs.filter st false kwargs
    p.1.deleteRun p.2 false table
  else qs.deleteRun st each table

/-- Outcome of a bulk statement: the value or error and how many batched
execute_many round trips were issued. -/
structure BulkResult where
  bulkResult : Except Err Unit
  bulkBatches : Nat
  deriving DecidableEq

/-- One prepared bulk-update parameter set: the instance values translated to
column aliases, restricted to the chosen columns and keyed with the new_
marker.  The dict/substitute/translate collaborators are modelled from the
spec. -/
def bulkReadyObject (meta : ModelMeta) (columns : List String) (o : Inst) :
    List (String × Int) :=
  (o.instFields.map (fun kv => (meta.get_column_alias kv.1, kv.2))).filterMap
    (fun kv => if kv.1 ∈ columns then some ("new_" ++ kv.1, kv.2) else none)

/-- The object-preparation loop of QuerySet.bulk_update: instances are
processed in order and an instance without a populated primary key raises
ModelPersistenceError, aborting before anything is sent. -/
def readyObjectsLoop (meta : ModelMeta) (columns : List String) :
    List Inst → Except Err (List (List (String × Int)))
  | [] => Except.ok []
  | o :: rest =>
    match o.pk with
    | none => Except.error Err.persistence
    | some _ =>
      match readyObjectsLoop meta columns rest with
      | Except.error e => Except.error e
      | Except.ok rs => Except.ok (bulkReadyObject meta columns o :: rs)

/-- QuerySet.bulk_update: resolve the column set (all own and related fields
when none or an empty list is given, the primary key always added), prepare
every object, and only then issue one batched execute_many round trip. -/
def QuerySet.bulk_update (qs : QuerySet) (objects : List Inst)
    (columns : Option (List String)) : BulkResult :=
  let pk_name := qs.model_cls.pkname
  let self_fields :=
    (qs.model_cls.ownFields ++ qs.model_cls.relatedNames).eraseDups
  let cols0 := match columns with
    | some c => if c.isEmpty then self_fields else c
    | none => self_fields
  let cols1 := if pk_name ∈ cols0 then cols0 else cols0 ++ [pk_name]
  let cols := cols1.map qs.model_cls.get_column_alias
  match readyObjectsLoop qs.model_cls cols objects with
  | Except.error e => ⟨Except.error e, 0⟩
  | Except.ok _ => ⟨Except.ok (), 1⟩

/-- Chained order_by calls, one per element of the argument list. -/
def orderBySeq (colss : List (List String)) (qs : QuerySet) (st : Store) :
    QuerySet × Store :=
  colss.foldl (fun p cols => p.1.order_by p.2 cols) (qs, st)

/-- The sort-specification contents of a descriptor. -/
def QuerySet.orderBysVal (qs : QuerySet) (st : Store) : List String :=
  st.getStrs qs.order_bys

/-- A concrete schema used by the closed witnesses: integer primary key id and
one own column name. -/
def exampleMeta : ModelMeta := ⟨"id", ["id", "name"], [], []⟩

/-- A concrete chain of builder calls used by the closed witnesses. -/
def demoCalls : List BuilderCall :=
  [BuilderCall.orderByC ["name"],
    BuilderCall.filterC [⟨[], "name", FilterOp.exact, 1⟩],
    BuilderCall.limitC 5 none,
    BuilderCall.fieldsC (MaskArg.names ["name"])]

/-- The rows of the table matching the descriptor's plain compiled
expression. -/
def QuerySet.matchedRows (qs : QuerySet) (st : Store) (table : List Row) :
    List Row :=
  table.filter (fun row =>
    (qs.build_select_expression st none none none).rowMatches row)

/-- A concrete filtered descriptor (name = 5) used by the closed witnesses. -/
def demoFiltered : QuerySet × Store :=
  (rootQuerySet Store.empty exampleMeta).1.filter
    (rootQuerySet Store.empty exampleMeta).2 false [mkExactClause ("name", 5)]

instance (specs : List String) : IsTotal Row (rowLe specs) := by
  constructor
  intro a b
  unfold rowLe
  induction specs
  case nil => exact Or.inl rfl
  case cons s rest ih =>
    by_cases heq : a.lookupD (parseSpec s).2 = b.lookupD (parseSpec s).2
    · rw [specLe, if_pos heq, specLe, if_pos heq.symm]
      exact ih
    · rw [specLe, if_neg heq, specLe, if_neg (Ne.symm heq)]
      rcases lt_trichotomy (a.lookupD (parseSpec s).2)
        (b.lookupD (parseSpec s).2) with h | h | h
      · by_cases hd : (parseSpec s).1
        · rw [if_pos hd, if_pos hd]
          exact Or.inr (by simpa using h)
        · rw [if_neg hd, if_neg hd]
          exact Or.inl (by simpa using h)
      · exact absurd h heq
      · by_cases hd : (parseSpec s).1
        · rw [if_pos hd, if_pos hd]
          exact Or.inl (by simpa using h)
        · rw [if_neg hd, if_neg hd]
          exact Or.inr (by simpa using h)

instance (specs : List String) : IsTrans Row (rowLe specs) := by
  constructor
  intro a b c h1 h2
  unfold rowLe at h1 h2 ⊢
  induction specs
  case nil => rfl
  case cons s rest ih =>
    by_cases hxy : a.lookupD (parseSpec s).2 = b.lookupD (parseSpec s).2 <;>
      by_cases hyz : b.lookupD (parseSpec s).2 = c.lookupD (parseSpec s).2
    · rw [specLe, if_pos hxy] at h1
      rw [specLe, if_pos hyz] at h2
      rw [specLe, if_pos (hxy.trans hyz)]
      exact ih h1 h2
    · rw [specLe, if_neg hyz] at h2
      rw [specLe, if_neg (hxy ▸ hyz), hxy]
      exact h2
    · rw [specLe, if_neg hxy] at h1
      rw [specLe, if_neg (hyz ▸ hxy), ← hyz]
      exact h1
    · rw [specLe, if_neg hxy] at h1
      rw [specLe, if_neg hyz] at h2
      by_cases hd : (parseSpec s).1
      · rw [if_pos hd] at h1 h2
        have hba := of_decide_eq_true h1
        have hcb := of_decide_eq_true h2
        rw [specLe, if_neg (by omega), if_pos hd]
        exact decide_eq_true (by omega)
      · rw [if_neg hd] at h1 h2
        have hab := of_decide_eq_true h1
        have hbc := of_decide_eq_true h2
        rw [specLe, if_neg (by omega), if_neg hd]
        exact decide_eq_true (by omega)

theorem Store.grows_refl (st : Store) : st.grows st :=
  ⟨⟨[], (List.append_nil _).symm⟩, ⟨[], (List.append_nil _).symm⟩,
    ⟨[], (List.append_nil _).symm⟩⟩

theorem Store.grows_trans {s1 s2 s3 : Store} (h1 : s1.grows s2)
    (h2 : s2.grows s3) : s1.grows s3 := by
  obtain ⟨⟨a1, e1⟩, ⟨b1, f1⟩, ⟨c1, g1⟩⟩ := h1
  obtain ⟨⟨a2, e2⟩, ⟨b2, f2⟩, ⟨c2, g2⟩⟩ := h2
  exact ⟨⟨a1 ++ a2, by rw [e2, e1, List.append_assoc]⟩,
    ⟨b1 ++ b2, by rw [f2, f1, List.append_assoc]⟩,
    ⟨c1 ++ c2, by rw [g2, g1, List.append_assoc]⟩⟩

theorem Store.grows_allocClauses (st : Store) (l : List Clause) :
    st.grows (st.allocClauses l).2 :=
  ⟨⟨[l], rfl⟩, ⟨[], (List.append_nil _).symm⟩, ⟨[], (List.append_nil _).symm⟩⟩

theorem Store.grows_allocStrs (st : Store) (l : List String) :
    st.grows (st.allocStrs l).2 :=
  ⟨⟨[], (List.append_nil _).symm⟩, ⟨[l], rfl⟩, ⟨[], (List.append_nil _).symm⟩⟩

theorem Store.grows_allocMask (st : Store) (d : MaskDict) :
    st.grows (st.allocMask d).2 :=
  ⟨⟨[], (List.append_nil _).symm⟩, ⟨[], (List.append_nil _).symm⟩, ⟨[d], rfl⟩⟩

theorem Store.getClauses_of_grows {st st' : Store} (h : st.grows st')
    {r : Nat} (hr : r < st.clauseLists.length) :
    st'.getClauses r = st.getClauses r := by
  obtain ⟨⟨t, e⟩, _, _⟩ := h
  simp only [Store.getClauses, e]
  exact List.getD_append _ _ _ _ hr

theorem Store.getStrs_of_grows {st st' : Store} (h : st.grows st')
    {r : Nat} (hr : r < st.strLists.length) :
    st'.getStrs r = st.getStrs r := by
  obtain ⟨_, ⟨t, e⟩, _⟩ := h
  simp only [Store.getStrs, e]
  exact List.getD_append _ _ _ _ hr

theorem Store.getMask_of_grows {st st' : Store} (h : st.grows st')
    {r : Nat} (hr : r < st.maskDicts.length) :
    st'.getMask r = st.getMask r := by
  obtain ⟨_, _, ⟨t, e⟩⟩ := h
  simp only [Store.getMask, e]
  exact List.getD_append _ _ _ _ hr

theorem Store.len_clauses_of_grows {st st' : Store} (h : st.grows st') :
    st.clauseLists.length ≤ st'.clauseLists.length := by
  obtain ⟨⟨t, e⟩, _, _⟩ := h
  simp [e]

theorem Store.len_strs_of_grows {st st' : Store} (h : st.grows st') :
    st.strLists.length ≤ st'.strLists.length := by
  obtain ⟨_, ⟨t, e⟩, _⟩ := h
  simp [e]

theorem Store.len_masks_of_grows {st st' : Store} (h : st.grows st') :
    st.maskDicts.length ≤ st'.maskDicts.length := by
  obtain ⟨_, _, ⟨t, e⟩⟩ := h
  simp [e]

theorem stepClauses_grows (p : Option Nat) (st : Store) :
    st.grows (stepClauses p st).2 := by
  cases p
  case none => exact Store.grows_allocClauses _ _
  case some => exact Store.grows_refl _

theorem stepStrs_grows (p : Option Nat) (st : Store) :
    st.grows (stepStrs p st).2 := by
  cases p
  case none => exact Store.grows_allocStrs _ _
  case some => exact Store.grows_refl _

theorem stepMaskOr_grows (p : Option Nat) (st : Store) :
    st.grows (stepMaskOr p st).2 := by
  cases p
  case none => exact Store.grows_allocMask _ _
  case some r =>
    simp only [stepMaskOr]
    split
    case isTrue => exact Store.grows_allocMask _ _
    case isFalse => exact Store.grows_refl _

theorem stepStrsOr_grows (p : Option Nat) (st : Store) :
    st.grows (stepStrsOr p st).2 := by
  cases p
  case none => exact Store.grows_allocStrs _ _
  case some r =>
    simp only [stepStrsOr]
    split
    case isTrue => exact Store.grows_allocStrs _ _
    case isFalse => exact Store.grows_refl _

theorem initQuerySet_grows (st : Store) (m : ModelMeta)
    (fc ec sr : Option Nat) (lc off : Option Nat) (co eco ob pr : Option Nat)
    (raw : Bool) :
    st.grows (initQuerySet st m fc ec sr lc off co eco ob pr raw).2 :=
  Store.grows_trans (stepClauses_grows fc st)
    (Store.grows_trans (stepClauses_grows ec _)
      (Store.grows_trans (stepStrs_grows sr _)
        (Store.grows_trans (stepStrs_grows pr _)
          (Store.grows_trans (stepMaskOr_grows co _)
            (Store.grows_trans (stepMaskOr_grows eco _)
              (stepStrsOr_grows ob _))))))

theorem stepMaskOr_fst_bound {st0 st' : Store}
    (h : st0.maskDicts.length ≤ st'.maskDicts.length) (r : Nat) :
    (stepMaskOr (some r) st').1 = r ∨
      st0.maskDicts.length ≤ (stepMaskOr (some r) st').1 := by
  simp only [stepMaskOr]
  split
  case isTrue => exact Or.inr h
  case isFalse => exact Or.inl rfl

theorem stepStrsOr_fst_bound {st0 st' : Store}
    (h : st0.strLists.length ≤ st'.strLists.length) (r : Nat) :
    (stepStrsOr (some r) st').1 = r ∨
      st0.strLists.length ≤ (stepStrsOr (some r) st').1 := by
  simp only [stepStrsOr]
  split
  case isTrue => exact Or.inr h
  case isFalse => exact Or.inl rfl

/-- Reference characterization of QuerySet.__init__ when every container
argument is passed: the clause and relation lists are stored aliased, while the
two masks and the order list are either aliased or freshly allocated (when
falsy). -/
theorem initQuerySet_refs (st : Store) (m : ModelMeta) (a b c : Nat)
    (lc off : Option Nat) (d e f g : Nat) (raw : Bool) :
    (initQuerySet st m (some a) (some b) (some c) lc off (some d) (some e)
        (some f) (some g) raw).1.filter_clauses = a ∧
    (initQuerySet st m (some a) (some b) (some c) lc off (some d) (some e)
        (some f) (some g) raw).1.exclude_clauses = b ∧
    (initQuerySet st m (some a) (some b) (some c) lc off (some d) (some e)
        (some f) (some g) raw).1.select_related = c ∧
    (initQuerySet st m (some a) (some b) (some c) lc off (some d) (some e)
        (some f) (some g) raw).1.prefetch_related = g ∧
    ((initQuerySet st m (some a) (some b) (some c) lc off (some d) (some e)
        (some f) (some g) raw).1.columns = d ∨
      st.maskDicts.length ≤ (initQuerySet st m (some a) (some b) (some c) lc
        off (some d) (some e) (some f) (some g) raw).1.columns) ∧
    ((initQuerySet st m (some a) (some b) (some c) lc off (some d) (some e)
        (some f) (some g) raw).1.exclude_columns = e ∨
      st.maskDicts.length ≤ (initQuerySet st m (some a) (some b) (some c) lc
        off (some d) (some e) (some f) (some g) raw).1.exclude_columns) ∧
    ((initQuerySet st m (some a) (some b) (some c) lc off (some d) (some e)
        (some f) (some g) raw).1.order_bys = f ∨
      st.strLists.length ≤ (initQuerySet st m (some a) (some b) (some c) lc
        off (some d) (some e) (some f) (some g) raw).1.order_bys) := by
  refine ⟨rfl, rfl, rfl, rfl, ?_, ?_, ?_⟩
  · exact stepMaskOr_fst_bound (Nat.le_refl _) d
  · exact stepMaskOr_fst_bound
      (Store.len_masks_of_grows (stepMaskOr_grows (some d) st)) e
  · exact stepStrsOr_fst_bound
      (Store.len_strs_of_grows (Store.grows_trans
        (stepMaskOr_grows (some d) st) (stepMaskOr_grows (some e) _))) f

theorem applyCall_grows (call : BuilderCall) (qs : QuerySet) (st : Store) :
    st.grows (applyCall call qs st).2 := by
  cases call
  case filterC kwargs =>
    exact Store.grows_trans (Store.grows_allocClauses st _)
      (Store.grows_trans (Store.grows_allocStrs _ _) (initQuerySet_grows _ _ _ _ _ _ _ _ _ _ _ _))
  case excludeC kwargs =>
    exact Store.grows_trans (Store.grows_allocClauses st _)
      (Store.grows_trans (Store.grows_allocStrs _ _) (initQuerySet_grows _ _ _ _ _ _ _ _ _ _ _ _))
  case selectRelatedC related =>
    exact Store.grows_trans (Store.grows_allocStrs st _) (initQuerySet_grows _ _ _ _ _ _ _ _ _ _ _ _)
  case prefetchRelatedC related =>
    exact Store.grows_trans (Store.grows_allocStrs st _) (initQuerySet_grows _ _ _ _ _ _ _ _ _ _ _ _)
  case fieldsC columns =>
    exact Store.grows_trans (Store.grows_allocMask st _) (initQuerySet_grows _ _ _ _ _ _ _ _ _ _ _ _)
  case excludeFieldsC columns =>
    exact Store.grows_trans (Store.grows_allocMask st _) (initQuerySet_grows _ _ _ _ _ _ _ _ _ _ _ _)
  case orderByC columns =>
    exact Store.grows_trans (Store.grows_allocStrs st _) (initQuerySet_grows _ _ _ _ _ _ _ _ _ _ _ _)
  case limitC n raw => exact initQuerySet_grows _ _ _ _ _ _ _ _ _ _ _ _
  case offsetC n raw => exact initQuerySet_grows _ _ _ _ _ _ _ _ _ _ _ _

theorem applySeq_grows (calls : List BuilderCall) (qs : QuerySet) (st : Store) :
    st.grows (applySeq calls qs st).2 := by
  induction calls generalizing qs st
  case nil => exact Store.grows_refl st
  case cons call rest ih =>
    exact Store.grows_trans (applyCall_grows call qs st) (ih _ _)

theorem QuerySet.validRefs_of_grows {qs : QuerySet} {st st' : Store}
    (hv : qs.validRefs st) (hg : st.grows st') : qs.validRefs st' := by
  obtain ⟨h1, h2, h3, h4, h5, h6, h7⟩ := hv
  exact ⟨Nat.lt_of_lt_of_le h1 (Store.len_clauses_of_grows hg),
    Nat.lt_of_lt_of_le h2 (Store.len_clauses_of_grows hg),
    Nat.lt_of_lt_of_le h3 (Store.len_strs_of_grows hg),
    Nat.lt_of_lt_of_le h4 (Store.len_strs_of_grows hg),
    Nat.lt_of_lt_of_le h5 (Store.len_strs_of_grows hg),
    Nat.lt_of_lt_of_le h6 (Store.len_masks_of_grows hg),
    Nat.lt_of_lt_of_le h7 (Store.len_masks_of_grows hg)⟩

theorem QuerySet.observe_of_grows {qs : QuerySet} {st st' : Store}
    (hv : qs.validRefs st) (hg : st.grows st') :
    qs.observe st' = qs.observe st := by
  obtain ⟨h1, h2, h3, h4, h5, h6, h7⟩ := hv
  unfold QuerySet.observe
  rw [Store.getClauses_of_grows hg h1, Store.getClauses_of_grows hg h2,
    Store.getStrs_of_grows hg h3, Store.getStrs_of_grows hg h4,
    Store.getStrs_of_grows hg h5, Store.getMask_of_grows hg h6,
    Store.getMask_of_grows hg h7]

theorem initQuerySet_childRefsOk (qs : QuerySet) (st0 st : Store)
    (m : ModelMeta) (a b c : Nat) (lc off : Option Nat) (d e f g : Nat)
    (raw : Bool)
    (hs : st0.strLists.length ≤ st.strLists.length)
    (hm : st0.maskDicts.length ≤ st.maskDicts.length)
    (ha : a = qs.filter_clauses ∨ st0.clauseLists.length ≤ a)
    (hb : b = qs.exclude_clauses ∨ st0.clauseLists.length ≤ b)
    (hcc : c = qs.select_related ∨ st0.strLists.length ≤ c)
    (hg : g = qs.prefetch_related ∨ st0.strLists.length ≤ g)
    (hf : f = qs.order_bys ∨ st0.strLists.length ≤ f)
    (hd : d = qs.columns ∨ st0.maskDicts.length ≤ d)
    (he : e = qs.exclude_columns ∨ st0.maskDicts.length ≤ e) :
    childRefsOk qs (initQuerySet st m (some a) (some b) (some c) lc off
      (some d) (some e) (some f) (some g) raw).1 st0 := by
  obtain ⟨r1, r2, r3, r4, r5, r6, r7⟩ :=
    initQuerySet_refs st m a b c lc off d e f g raw
  refine ⟨?_, ?_, ?_, ?_, ?_, ?_, ?_⟩
  · rw [r1]; exact ha
  · rw [r2]; exact hb
  · rw [r3]; exact hcc
  · rw [r4]; exact hg
  · rcases r7 with h | h
    · rw [h]; exact hf
    · exact Or.inr (Nat.le_trans hs h)
  · rcases r5 with h | h
    · rw [h]; exact hd
    · exact Or.inr (Nat.le_trans hm h)
  · rcases r6 with h | h
    · rw [h]; exact he
    · exact Or.inr (Nat.le_trans hm h)

theorem applyCall_refsOk (call : BuilderCall) (qs : QuerySet) (st : Store) :
    childRefsOk qs (applyCall call qs st).1 st := by
  cases call
  case filterC kwargs =>
    apply initQuerySet_childRefsOk
    case hs => exact Store.len_strs_of_grows (Store.grows_trans
      (Store.grows_allocClauses _ _) (Store.grows_allocStrs _ _))
    case hm => exact Store.len_masks_of_grows (Store.grows_trans
      (Store.grows_allocClauses _ _) (Store.grows_allocStrs _ _))
    case ha => exact Or.inr (Nat.le_refl _)
    case hb => exact Or.inl rfl
    case hcc => exact Or.inr (Nat.le_refl _)
    case hg => exact Or.inl rfl
    case hf => exact Or.inl rfl
    case hd => exact Or.inl rfl
    case he => exact Or.inl rfl
  case excludeC kwargs =>
    apply initQuerySet_childRefsOk
    case hs => exact Store.len_strs_of_grows (Store.grows_trans
      (Store.grows_allocClauses _ _) (Store.grows_allocStrs _ _))
    case hm => exact Store.len_masks_of_grows (Store.grows_trans
      (Store.grows_allocClauses _ _) (Store.grows_allocStrs _ _))
    case ha => exact Or.inl rfl
    case hb => exact Or.inr (Nat.le_refl _)
    case hcc => exact Or.inr (Nat.le_refl _)
    case hg => exact Or.inl rfl
    case hf => exact Or.inl rfl
    case hd => exact Or.inl rfl
    case he => exact Or.inl rfl
  case selectRelatedC related =>
    apply initQuerySet_childRefsOk
    case hs => exact Store.len_strs_of_grows (Store.grows_allocStrs _ _)
    case hm => exact Store.len_masks_of_grows (Store.grows_allocStrs _ _)
    case ha => exact Or.inl rfl
    case hb => exact Or.inl rfl
    case hcc => exact Or.inr (Nat.le_refl _)
    case hg => exact Or.inl rfl
    case hf => exact Or.inl rfl
    case hd => exact Or.inl rfl
    case he => exact Or.inl rfl
  case prefetchRelatedC related =>
    apply initQuerySet_childRefsOk
    case hs => exact Store.len_strs_of_grows (Store.grows_allocStrs _ _)
    case hm => exact Store.len_masks_of_grows (Store.grows_allocStrs _ _)
    case ha => exact Or.inl rfl
    case hb => exact Or.inl rfl
    case hcc => exact Or.inl rfl
    case hg => exact Or.inr (Nat.le_refl _)
    case hf => exact Or.inl rfl
    case hd => exact Or.inl rfl
    case he => exact Or.inl rfl
  case fieldsC columns =>
    apply initQuerySet_childRefsOk
    case hs => exact Store.len_strs_of_grows (Store.grows_allocMask _ _)
    case hm => exact Store.len_masks_of_grows (Store.grows_allocMask _ _)
    case ha => exact Or.inl rfl
    case hb => exact Or.inl rfl
    case hcc => exact Or.inl rfl
    case hg => exact Or.inl rfl
    case hf => exact Or.inl rfl
    case hd => exact Or.inr (Nat.le_refl _)
    case he => exact Or.inl rfl
  case excludeFieldsC columns =>
    apply initQuerySet_childRefsOk
    case hs => exact Store.len_strs_of_grows (Store.grows_allocMask _ _)
    case hm => exact Store.len_masks_of_grows (Store.grows_allocMask _ _)
    case ha => exact Or.inl rfl
    case hb => exact Or.inl rfl
    case hcc => exact Or.inl rfl
    case hg => exact Or.inl rfl
    case hf => exact Or.inl rfl
    case hd => exact Or.inl rfl
    case he => exact Or.inr (Nat.le_refl _)
  case orderByC columns =>
    apply initQuerySet_childRefsOk
    case hs => exact Store.len_strs_of_grows (Store.grows_allocStrs _ _)
    case hm => exact Store.len_masks_of_grows (Store.grows_allocStrs _ _)
    case ha => exact Or.inl rfl
    case hb => exact Or.inl rfl
    case hcc => exact Or.inl rfl
    case hg => exact Or.inl rfl
    case hf => exact Or.inr (Nat.le_refl _)
    case hd => exact Or.inl rfl
    case he => exact Or.inl rfl
  case limitC n raw =>
    apply initQuerySet_childRefsOk
    case hs => exact Nat.le_refl _
    case hm => exact Nat.le_refl _
    case ha => exact Or.inl rfl
    case hb => exact Or.inl rfl
    case hcc => exact Or.inl rfl
    case hg => exact Or.inl rfl
    case hf => exact Or.inl rfl
    case hd => exact Or.inl rfl
    case he => exact Or.inl rfl
  case offsetC n raw =>
    apply initQuerySet_childRefsOk
    case hs => exact Nat.le_refl _
    case hm => exact Nat.le_refl _
    case ha => exact Or.inl rfl
    case hb => exact Or.inl rfl
    case hcc => exact Or.inl rfl
    case hg => exact Or.inl rfl
    case hf => exact Or.inl rfl
    case hd => exact Or.inl rfl
    case he => exact Or.inl rfl

theorem Store.getStrs_allocStrs (st : Store) (l : List String) :
    (st.allocStrs l).2.getStrs (st.allocStrs l).1 = l := by
  simp [Store.allocStrs, Store.getStrs, List.getD, List.getElem?_concat_length]

theorem Store.getClauses_allocClauses (st : Store) (l : List Clause) :
    (st.allocClauses l).2.getClauses (st.allocClauses l).1 = l := by
  simp [Store.allocClauses, Store.getClauses, List.getD,
    List.getElem?_concat_length]

theorem Store.getMask_allocMask (st : Store) (d : MaskDict) :
    (st.allocMask d).2.getMask (st.allocMask d).1 = d := by
  simp [Store.allocMask, Store.getMask, List.getD, List.getElem?_concat_length]

theorem stepMaskOr_strLists (r : Nat) (st : Store) :
    (stepMaskOr (some r) st).2.strLists = st.strLists := by
  simp only [stepMaskOr]
  split <;> rfl

/-- The sort-specification contents of a rebuilt descriptor equal the contents
of the passed order_bys container: a non-empty container is aliased, an empty
one is replaced by a fresh container with the same (empty) contents. -/
theorem initQuerySet_orderBysVal (st : Store) (m : ModelMeta) (a b c : Nat)
    (lc off : Option Nat) (d e f g : Nat) (raw : Bool) :
    (initQuerySet st m (some a) (some b) (some c) lc off (some d) (some e)
        (some f) (some g) raw).2.getStrs
      (initQuerySet st m (some a) (some b) (some c) lc off (some d) (some e)
        (some f) (some g) raw).1.order_bys = st.getStrs f := by
  show (stepStrsOr (some f) (stepMaskOr (some e) (stepMaskOr (some d) st).2).2).2.getStrs
      (stepStrsOr (some f) (stepMaskOr (some e) (stepMaskOr (some d) st).2).2).1 =
    st.getStrs f
  have hstr : (stepMaskOr (some e) (stepMaskOr (some d) st).2).2.strLists =
      st.strLists := by
    rw [stepMaskOr_strLists, stepMaskOr_strLists]
  have hget : (stepMaskOr (some e) (stepMaskOr (some d) st).2).2.getStrs f =
      st.getStrs f := by
    simp only [Store.getStrs, hstr]
  simp only [stepStrsOr]
  split
  case isTrue h =>
    rw [Store.getStrs_allocStrs]
    rw [hget] at h
    exact (List.isEmpty_iff.1 h).symm
  case isFalse h => exact hget

/-- The order_by step: the child's sort specifications are the parent's
followed by the argument paths not already present. -/
theorem order_by_val (qs : QuerySet) (st : Store) (cols : List String) :
    (qs.order_by st cols).1.orderBysVal (qs.order_by st cols).2 =
      qs.orderBysVal st ++
        cols.filter (fun x => decide (x ∉ qs.orderBysVal st)) := by
  show (initQuerySet _ _ _ _ _ _ _ _ _ _ _ _).2.getStrs
      (initQuerySet _ _ _ _ _ _ _ _ _ _ _ _).1.order_bys = _
  rw [initQuerySet_orderBysVal]
  exact Store.getStrs_allocStrs st _

/-- Claim C7: for every descriptor and every sequence of order_by calls the
resulting sort-specification list is the starting list extended, call by call,
by exactly those argument paths not already present, preserving first-seen
order; and a repeated order_by call with the same, now already-present, paths
leaves the list unchanged (idempotence). -/
theorem C7_order_by_appends_skipping_present :
    (∀ (colss : List (List String)) (qs : QuerySet) (st : Store),
      (orderBySeq colss qs st).1.orderBysVal (orderBySeq colss qs st).2 =
        colss.foldl
          (fun acc cols => acc ++ cols.filter (fun x => decide (x ∉ acc)))
          (qs.orderBysVal st)) ∧
    (∀ (cols : List String) (qs : QuerySet) (st : Store),
      ((qs.order_by st cols).1.order_by (qs.order_by st cols).2 cols).1.orderBysVal
          ((qs.order_by st cols).1.order_by (qs.order_by st cols).2 cols).2 =
        (qs.order_by st cols).1.orderBysVal (qs.order_by st cols).2) := by
  constructor
  · intro colss
    induction colss
    case nil => intro qs st; rfl
    case cons cols rest ih =>
      intro qs st
      have step := order_by_val qs st cols
      calc (orderBySeq (cols :: rest) qs st).1.orderBysVal
            (orderBySeq (cols :: rest) qs st).2
          = (orderBySeq rest (qs.order_by st cols).1
              (qs.order_by st cols).2).1.orderBysVal
              (orderBySeq rest (qs.order_by st cols).1
                (qs.order_by st cols).2).2 := rfl
        _ = rest.foldl
              (fun acc cols => acc ++ cols.filter (fun x => decide (x ∉ acc)))
              ((qs.order_by st cols).1.orderBysVal (qs.order_by st cols).2) :=
            ih _ _
        _ = _ := by simp only [List.foldl_cons, step]
  · intro cols qs st
    have hnil : cols.filter (fun x =>
        decide (x ∉ qs.orderBysVal st ++
          cols.filter (fun x => decide (x ∉ qs.orderBysVal st)))) = [] := by
      rw [List.filter_eq_nil_iff]
      intro x hx
      simp only [decide_eq_true_eq, Decidable.not_not]
      by_cases hmem : x ∈ qs.orderBysVal st
      · exact List.mem_append_left _ hmem
      · refine List.mem_append_right _ ?_
        rw [List.mem_filter]
        exact ⟨hx, by simpa using hmem⟩
    rw [order_by_val, order_by_val]
    simp only [hnil, List.append_nil]

/-- Claim C2, corrected: a fluent builder call never mutates an existing
container (the store only grows), and every container reference of the child
descriptor is either the parent's own container (aliased) or one freshly
allocated during the call; full independence as claimed does not hold. -/
theorem C2_amended_child_container_refs (call : BuilderCall) (qs : QuerySet)
    (st : Store) :
    Store.grows st (applyCall call qs st).2 ∧
      childRefsOk qs (applyCall call qs st).1 st :=
  ⟨applyCall_grows call qs st, applyCall_refsOk call qs st⟩

/-- Claim C2 counterexample: limit applied to a freshly obtained descriptor
returns a child whose filter-clause list, exclude-clause list, select-related
list and prefetch-related list are the very same containers (equal references)
as the parent's, refuting that no internal mutable container is shared between
parent and child. -/
theorem C2_counterexample_limit_shares_containers :
    ((rootQuerySet Store.empty exampleMeta).1.limit
        (rootQuerySet Store.empty exampleMeta).2 5 none).1.filter_clauses =
      (rootQuerySet Store.empty exampleMeta).1.filter_clauses ∧
    ((rootQuerySet Store.empty exampleMeta).1.limit
        (rootQuerySet Store.empty exampleMeta).2 5 none).1.exclude_clauses =
      (rootQuerySet Store.empty exampleMeta).1.exclude_clauses ∧
    ((rootQuerySet Store.empty exampleMeta).1.limit
        (rootQuerySet Store.empty exampleMeta).2 5 none).1.select_related =
      (rootQuerySet Store.empty exampleMeta).1.select_related ∧
    ((rootQuerySet Store.empty exampleMeta).1.limit
        (rootQuerySet Store.empty exampleMeta).2 5 none).1.prefetch_related =
      (rootQuerySet Store.empty exampleMeta).1.prefetch_related :=
  ⟨rfl, rfl, rfl, rfl⟩

/-- Claim C3: every fluent builder call is a pure step from descriptor to
descriptor: after any sequence of builder calls the original descriptor's
filter clauses, exclude clauses, relation sets, field masks, order list,
limit and offset are observably unchanged. -/
theorem C3_builders_never_mutate_original (calls : List BuilderCall)
    (qs : QuerySet) (st : Store) (hv : qs.validRefs st) :
    qs.observe (applySeq calls qs st).2 = qs.observe st :=
  QuerySet.observe_of_grows hv (applySeq_grows calls qs st)

/-- Claim C3 witness: the immutability theorem applied to a freshly obtained
descriptor and a concrete chain of builder calls. -/
theorem C3_builders_never_mutate_original_witness :
    (rootQuerySet Store.empty exampleMeta).1.validRefs
        (rootQuerySet Store.empty exampleMeta).2 ∧
    (rootQuerySet Store.empty exampleMeta).1.observe
        (applySeq demoCalls (rootQuerySet Store.empty exampleMeta).1
          (rootQuerySet Store.empty exampleMeta).2).2 =
      (rootQuerySet Store.empty exampleMeta).1.observe
        (rootQuerySet Store.empty exampleMeta).2 :=
  ⟨by decide, C3_builders_never_mutate_original demoCalls
    (rootQuerySet Store.empty exampleMeta).1
    (rootQuerySet Store.empty exampleMeta).2 (by decide)⟩

theorem stepMaskOr_clauseLists (r : Nat) (st : Store) :
    (stepMaskOr (some r) st).2.clauseLists = st.clauseLists := by
  simp only [stepMaskOr]
  split <;> rfl

theorem stepStrsOr_clauseLists (r : Nat) (st : Store) :
    (stepStrsOr (some r) st).2.clauseLists = st.clauseLists := by
  simp only [stepStrsOr]
  split <;> rfl

theorem initQuerySet_clauseLists (st : Store) (m : ModelMeta) (a b c : Nat)
    (lc off : Option Nat) (d e f g : Nat) (raw : Bool) :
    (initQuerySet st m (some a) (some b) (some c) lc off (some d) (some e)
        (some f) (some g) raw).2.clauseLists = st.clauseLists := by
  show (stepStrsOr (some f)
      (stepMaskOr (some e) (stepMaskOr (some d) st).2).2).2.clauseLists =
    st.clauseLists
  rw [stepStrsOr_clauseLists, stepMaskOr_clauseLists, stepMaskOr_clauseLists]

/-- The expression compiled after exclude: the filter clauses are the
descriptor's previous ones and the exclude clauses are the prepared clauses of
the call. -/
theorem exclude_expr (qs : QuerySet) (st : Store) (kwargs : List Clause)
    (hvalid : qs.filter_clauses < st.clauseLists.length) :
    ((qs.exclude st kwargs).1.build_select_expression (qs.exclude st kwargs).2
        none none none).selFilters = st.getClauses qs.filter_clauses ∧
    ((qs.exclude st kwargs).1.build_select_expression (qs.exclude st kwargs).2
        none none none).selExcludes =
      st.getClauses qs.filter_clauses ++ kwargs := by
  have hcl : ((qs.exclude st kwargs).2).clauseLists =
      st.clauseLists ++ [(prepareFilter (st.getStrs qs.select_related)
        (st.getClauses qs.filter_clauses) kwargs).1] :=
    initQuerySet_clauseLists _ _ _ _ _ _ _ _ _ _ _ _
  constructor
  · show ((qs.exclude st kwargs).2).getClauses qs.filter_clauses =
      st.getClauses qs.filter_clauses
    simp only [Store.getClauses, hcl]
    exact List.getD_append _ _ _ _ hvalid
  · show ((qs.exclude st kwargs).2).getClauses st.clauseLists.length =
      st.getClauses qs.filter_clauses ++ kwargs
    simp only [Store.getClauses, hcl]
    simp [List.getD, List.getElem?_concat_length, prepareFilter]

/-- Claim C1: on a descriptor with no prior filter clauses, the query built by
exclude with two field-value clauses restricts rows by the negation of the
conjunction of the two conditions, and the concrete distinguisher shows this
differs from the conjunction of the per-clause negations: a row failing only
one condition is kept by the compiled query but would be dropped under
per-clause negation. -/
theorem C1_exclude_negates_conjunction (qs : QuerySet) (st : Store)
    (c1 c2 : Clause)
    (hvalid : qs.filter_clauses < st.clauseLists.length)
    (hempty : st.getClauses qs.filter_clauses = []) :
    (∀ row : Row,
      ((qs.exclude st [c1, c2]).1.build_select_expression
          (qs.exclude st [c1, c2]).2 none none none).rowMatches row =
        !(c1.evalRow row && c2.evalRow row)) ∧
    ((((rootQuerySet Store.empty exampleMeta).1.exclude
          (rootQuerySet Store.empty exampleMeta).2
          [⟨[], "name", FilterOp.exact, 1⟩,
            ⟨[], "year", FilterOp.exact, 2⟩]).1.build_select_expression
        ((rootQuerySet Store.empty exampleMeta).1.exclude
          (rootQuerySet Store.empty exampleMeta).2
          [⟨[], "name", FilterOp.exact, 1⟩,
            ⟨[], "year", FilterOp.exact, 2⟩]).2 none none
        none).rowMatches [("name", 1), ("year", 3)] = true ∧
      ((!(Clause.evalRow ⟨[], "name", FilterOp.exact, 1⟩
            [("name", 1), ("year", 3)])) &&
        (!(Clause.evalRow ⟨[], "year", FilterOp.exact, 2⟩
            [("name", 1), ("year", 3)]))) = false) := by
  obtain ⟨h1, h2⟩ := exclude_expr qs st [c1, c2] hvalid
  refine ⟨?_, by decide, by decide⟩
  intro row
  simp only [SelectExpr.rowMatches, h1, h2, hempty]
  simp [List.all]

/-- Claim C1 witness: the exclude theorem applied to a fresh descriptor, two
concrete exact clauses and a concrete row satisfying both conditions, which
the compiled query therefore rejects. -/
theorem C1_exclude_negates_conjunction_witness :
    ((((rootQuerySet Store.empty exampleMeta).1.exclude
        (rootQuerySet Store.empty exampleMeta).2
        [⟨[], "name", FilterOp.exact, 1⟩,
          ⟨[], "year", FilterOp.exact, 2⟩]).1.build_select_expression
      ((rootQuerySet Store.empty exampleMeta).1.exclude
        (rootQuerySet Store.empty exampleMeta).2
        [⟨[], "name", FilterOp.exact, 1⟩,
          ⟨[], "year", FilterOp.exact, 2⟩]).2 none none
      none).rowMatches [("name", 1), ("year", 2)]) =
      !((Clause.evalRow ⟨[], "name", FilterOp.exact, 1⟩
          [("name", 1), ("year", 2)]) &&
        (Clause.evalRow ⟨[], "year", FilterOp.exact, 2⟩
          [("name", 1), ("year", 2)])) :=
  (C1_exclude_negates_conjunction (rootQuerySet Store.empty exampleMeta).1
    (rootQuerySet Store.empty exampleMeta).2
    ⟨[], "name", FilterOp.exact, 1⟩ ⟨[], "year", FilterOp.exact, 2⟩
    (by decide) (by decide)).1 [("name", 1), ("year", 2)]

/-- Claim C5: with no filter clause set, update and delete without the each
override fail with QueryDefinitionError before any database round trip (no
execute happens and the table is untouched), while update and delete with
each set to true succeed and affect every row of the table. -/
theorem C5_update_delete_need_filter_or_each (qs : QuerySet) (st : Store)
    (kwargs : List (String × Int)) (table : List Row)
    (hempty : st.getClauses qs.filter_clauses = []) :
    (qs.update st false kwargs table =
      ⟨Except.error Err.queryDefinition, table, 0⟩) ∧
    (qs.delete st false [] table =
      ⟨Except.error Err.queryDefinition, table, 0⟩) ∧
    (qs.update st true kwargs table =
      ⟨Except.ok table.length,
        table.map (applyUpdates (qs.updateValues kwargs)), 1⟩) ∧
    (qs.delete st true [] table = ⟨Except.ok table.length, [], 1⟩) := by
  refine ⟨?_, ?_, ?_, ?_⟩
  · simp [QuerySet.update, hempty]
  · simp [QuerySet.delete, QuerySet.deleteRun, hempty]
  · simp [QuerySet.update, hempty, filterMatches]
  · simp [QuerySet.delete, QuerySet.deleteRun, hempty, filterMatches]

/-- Claim C5 witness: the theorem applied to a fresh descriptor and a concrete
two-row table. -/
theorem C5_update_delete_need_filter_or_each_witness :
    ((rootQuerySet Store.empty exampleMeta).1.update
        (rootQuerySet Store.empty exampleMeta).2 false [("name", 7)]
        [[("id", 1), ("name", 2)], [("id", 2), ("name", 3)]] =
      ⟨Except.error Err.queryDefinition,
        [[("id", 1), ("name", 2)], [("id", 2), ("name", 3)]], 0⟩) ∧
    ((rootQuerySet Store.empty exampleMeta).1.delete
        (rootQuerySet Store.empty exampleMeta).2 false []
        [[("id", 1), ("name", 2)], [("id", 2), ("name", 3)]] =
      ⟨Except.error Err.queryDefinition,
        [[("id", 1), ("name", 2)], [("id", 2), ("name", 3)]], 0⟩) ∧
    ((rootQuerySet Store.empty exampleMeta).1.update
        (rootQuerySet Store.empty exampleMeta).2 true [("name", 7)]
        [[("id", 1), ("name", 2)], [("id", 2), ("name", 3)]] =
      ⟨Except.ok 2, [[("id", 1), ("name", 7)], [("id", 2), ("name", 7)]], 1⟩) ∧
    ((rootQuerySet Store.empty exampleMeta).1.delete
        (rootQuerySet Store.empty exampleMeta).2 true []
        [[("id", 1), ("name", 2)], [("id", 2), ("name", 3)]] =
      ⟨Except.ok 2, [], 1⟩) := by
  obtain ⟨h1, h2, h3, h4⟩ := C5_update_delete_need_filter_or_each
    (rootQuerySet Store.empty exampleMeta).1
    (rootQuerySet Store.empty exampleMeta).2 [("name", 7)]
    [[("id", 1), ("name", 2)], [("id", 2), ("name", 3)]] (by decide)
  exact ⟨h1, h2, by rw [h3]; decide, h4⟩

theorem applyUpdates_nil (row : Row) : applyUpdates [] row = row := by
  simp [applyUpdates]

/-- Claim C10: only keyword arguments naming the model's own database fields
or related names reach the update expression: two calls whose arguments agree
on those fields behave identically, and a call whose arguments name no such
field succeeds (given the each override) without touching any row — unknown
names are silently dropped, never an error. -/
theorem C10_update_ignores_unknown_fields (qs : QuerySet) (st : Store)
    (each : Bool) (kw1 kw2 kw : List (String × Int)) (table : List Row)
    (hagree : kw1.filter (fun kv =>
        decide (kv.1 ∈ qs.model_cls.ownFields ++ qs.model_cls.relatedNames)) =
      kw2.filter (fun kv =>
        decide (kv.1 ∈ qs.model_cls.ownFields ++ qs.model_cls.relatedNames)))
    (hunknown : kw.filter (fun kv =>
        decide (kv.1 ∈ qs.model_cls.ownFields ++ qs.model_cls.relatedNames)) =
      []) :
    qs.update st each kw1 table = qs.update st each kw2 table ∧
    (qs.update st true kw table =
      ⟨Except.ok (table.filter (fun row =>
          filterMatches (st.getClauses qs.filter_clauses) row)).length,
        table, 1⟩) := by
  constructor
  · have hval : qs.updateValues kw1 = qs.updateValues kw2 := by
      show (kw1.filter (fun kv =>
          decide (kv.1 ∈ qs.model_cls.ownFields ++
            qs.model_cls.relatedNames))).map
          (fun kv => (qs.model_cls.get_column_alias kv.1, kv.2)) =
        (kw2.filter (fun kv =>
          decide (kv.1 ∈ qs.model_cls.ownFields ++
            qs.model_cls.relatedNames))).map
          (fun kv => (qs.model_cls.get_column_alias kv.1, kv.2))
      rw [hagree]
    simp only [QuerySet.update, hval]
  · have hval : qs.updateValues kw = [] := by
      show (kw.filter (fun kv =>
          decide (kv.1 ∈ qs.model_cls.ownFields ++
            qs.model_cls.relatedNames))).map
          (fun kv => (qs.model_cls.get_column_alias kv.1, kv.2)) = []
      rw [hunknown]
      rfl
    simp [QuerySet.update, hval, applyUpdates_nil]

/-- Claim C10 witness: an update carrying one known and one unknown field
behaves exactly as the update carrying only the known field, and an update
carrying only unknown fields succeeds leaving the table unchanged. -/
theorem C10_update_ignores_unknown_fields_witness :
    (rootQuerySet Store.empty exampleMeta).1.update
        (rootQuerySet Store.empty exampleMeta).2 true
        [("name", 5), ("bogus", 9)] [[("id", 1), ("name", 2)]] =
      (rootQuerySet Store.empty exampleMeta).1.update
        (rootQuerySet Store.empty exampleMeta).2 true [("name", 5)]
        [[("id", 1), ("name", 2)]] ∧
    (rootQuerySet Store.empty exampleMeta).1.update
        (rootQuerySet Store.empty exampleMeta).2 true [("bogus", 9)]
        [[("id", 1), ("name", 2)]] =
      ⟨Except.ok 1, [[("id", 1), ("name", 2)]], 1⟩ := by
  obtain ⟨h1, h2⟩ := C10_update_ignores_unknown_fields
    (rootQuerySet Store.empty exampleMeta).1
    (rootQuerySet Store.empty exampleMeta).2 true
    [("name", 5), ("bogus", 9)] [("name", 5)] [("bogus", 9)]
    [[("id", 1), ("name", 2)]] (by decide) (by decide)
  exact ⟨h1, by rw [h2]; decide⟩

theorem readyObjectsLoop_error (meta : ModelMeta) (columns : List String)
    (objects : List Inst) (h : ∃ o ∈ objects, o.pk = none) :
    readyObjectsLoop meta columns objects = Except.error Err.persistence := by
  induction objects
  case nil => obtain ⟨o, hmem, _⟩ := h; cases hmem
  case cons a rest ih =>
    obtain ⟨o, hmem, hpk⟩ := h
    rcases List.mem_cons.1 hmem with hhead | htail
    · subst hhead
      simp [readyObjectsLoop, hpk]
    · have hrest := ih ⟨o, htail, hpk⟩
      cases ha : a.pk
      case none => simp [readyObjectsLoop, ha]
      case some v => simp [readyObjectsLoop, ha, hrest]

/-- Claim C6: when any instance of the list lacks a populated primary key,
bulk_update fails with ModelPersistenceError and issues zero batched round
trips — nothing is written, including for the instances that do carry a
primary key. -/
theorem C6_bulk_update_aborts_without_pk (qs : QuerySet)
    (objects : List Inst) (columns : Option (List String))
    (h : ∃ o ∈ objects, o.pk = none) :
    qs.bulk_update objects columns = ⟨Except.error Err.persistence, 0⟩ := by
  simp [QuerySet.bulk_update, readyObjectsLoop_error _ _ _ h]

/-- Claim C6 witness: a batch of one saved and one unsaved instance aborts
with ModelPersistenceError and zero round trips. -/
theorem C6_bulk_update_aborts_without_pk_witness :
    (rootQuerySet Store.empty exampleMeta).1.bulk_update
        [⟨some 1, [("id", 1), ("name", 2)]⟩, ⟨none, [("name", 3)]⟩] none =
      ⟨Except.error Err.persistence, 0⟩ :=
  C6_bulk_update_aborts_without_pk (rootQuerySet Store.empty exampleMeta).1
    [⟨some 1, [("id", 1), ("name", 2)]⟩, ⟨none, [("name", 3)]⟩] none
    ⟨⟨none, [("name", 3)]⟩, by decide, rfl⟩

theorem create_table_length (qs : QuerySet) (kwargs : List (String × Int))
    (table : List Row) :
    (qs.create kwargs table).2.length = table.length + 1 := by
  simp only [QuerySet.create]
  cases List.lookup qs.model_cls.pkname kwargs <;> simp

/-- Claim C8: get_or_create first attempts get with the keyword criteria; a
successful get returns the existing instance with no insert; exactly the
NoMatch failure triggers a create with the same arguments, growing the table
by one row; every other failure kind, MultipleMatches included, is surfaced
unchanged and never converted into a create. -/
theorem C8_get_or_create_creates_only_on_noMatch (qs : QuerySet) (st : Store)
    (kwargs : List (String × Int)) (table : List Row) :
    (∀ i, qs.get st (kwargs.map mkExactClause) table = Except.ok i →
      qs.get_or_create st kwargs table = (Except.ok i, table)) ∧
    (qs.get st (kwargs.map mkExactClause) table = Except.error Err.noMatch →
      qs.get_or_create st kwargs table =
        (Except.ok (qs.create kwargs table).1, (qs.create kwargs table).2) ∧
      (qs.get_or_create st kwargs table).2.length = table.length + 1) ∧
    (∀ e, e ≠ Err.noMatch →
      qs.get st (kwargs.map mkExactClause) table = Except.error e →
      qs.get_or_create st kwargs table = (Except.error e, table)) := by
  refine ⟨?_, ?_, ?_⟩
  · intro i h
    simp [QuerySet.get_or_create, h]
  · intro h
    refine ⟨by simp [QuerySet.get_or_create, h], ?_⟩
    simp [QuerySet.get_or_create, h, create_table_length]
  · intro e hne h
    cases e
    case noMatch => exact absurd rfl hne
    case multipleMatches => simp [QuerySet.get_or_create, h]
    case queryDefinition => simp [QuerySet.get_or_create, h]
    case persistence => simp [QuerySet.get_or_create, h]

/-- Claim C8 witness: on a one-row table the matching get returns the
existing instance and nothing is inserted; on an empty table the NoMatch is
converted into a create inserting one row; on a two-row ambiguous table the
MultipleMatches failure is surfaced and nothing is inserted. -/
theorem C8_get_or_create_creates_only_on_noMatch_witness :
    (rootQuerySet Store.empty exampleMeta).1.get_or_create
        (rootQuerySet Store.empty exampleMeta).2 [("name", 5)]
        [[("id", 1), ("name", 5)]] =
      (Except.ok ⟨some 1, [("id", 1), ("name", 5)]⟩,
        [[("id", 1), ("name", 5)]]) ∧
    (rootQuerySet Store.empty exampleMeta).1.get_or_create
        (rootQuerySet Store.empty exampleMeta).2 [("name", 5)] [] =
      (Except.ok ((rootQuerySet Store.empty exampleMeta).1.create
          [("name", 5)] []).1,
        ((rootQuerySet Store.empty exampleMeta).1.create [("name", 5)] []).2) ∧
    (rootQuerySet Store.empty exampleMeta).1.get_or_create
        (rootQuerySet Store.empty exampleMeta).2 [("name", 5)]
        [[("id", 1), ("name", 5)], [("id", 2), ("name", 5)]] =
      (Except.error Err.multipleMatches,
        [[("id", 1), ("name", 5)], [("id", 2), ("name", 5)]]) :=
  ⟨(C8_get_or_create_creates_only_on_noMatch
      (rootQuerySet Store.empty exampleMeta).1
      (rootQuerySet Store.empty exampleMeta).2 [("name", 5)]
      [[("id", 1), ("name", 5)]]).1 ⟨some 1, [("id", 1), ("name", 5)]⟩
      (by decide),
    ((C8_get_or_create_creates_only_on_noMatch
      (rootQuerySet Store.empty exampleMeta).1
      (rootQuerySet Store.empty exampleMeta).2 [("name", 5)] []).2.1
      (by decide)).1,
    (C8_get_or_create_creates_only_on_noMatch
      (rootQuerySet Store.empty exampleMeta).1
      (rootQuerySet Store.empty exampleMeta).2 [("name", 5)]
      [[("id", 1), ("name", 5)], [("id", 2), ("name", 5)]]).2.2
      Err.multipleMatches (by decide) (by decide)⟩

theorem instKey_fromRow (meta : ModelMeta) (row : Row) :
    instKey (fromRow meta row) = List.lookup meta.pkname row := by
  unfold fromRow instKey
  cases List.lookup meta.pkname row <;> simp

theorem dedup_length_cons_filter {α : Type} [DecidableEq α] (k : α)
    (M : List α) :
    (k :: M).dedup.length =
      (M.filter (fun x => decide (x ≠ k))).dedup.length + 1 := by
  rw [← List.card_toFinset, ← List.card_toFinset, List.toFinset_cons,
    List.toFinset_filter]
  have herase : M.toFinset.filter (fun x => decide (x ≠ k) = true) =
      M.toFinset.erase k := by
    rw [← Finset.filter_ne' M.toFinset k]
    apply Finset.filter_congr
    intro x _
    simp
  rw [herase]
  by_cases hk : k ∈ M.toFinset
  · rw [Finset.insert_eq_self.2 hk]
    exact (Finset.card_erase_add_one hk).symm
  · rw [Finset.card_insert_of_not_mem hk, Finset.erase_eq_of_not_mem hk]

theorem mergeLoop_length (l : List (Option Inst)) :
    ∀ seen, (mergeLoop seen l).length =
      ((l.map instKey).filter (fun k => decide (k ∉ seen))).dedup.length := by
  induction l
  case nil => intro seen; rfl
  case cons x xs ih =>
    intro seen
    by_cases hx : instKey x ∈ seen
    · rw [mergeLoop, if_pos hx]
      simp only [List.map_cons, List.filter_cons]
      rw [if_neg (by simp [hx])]
      exact ih seen
    · rw [mergeLoop, if_neg hx]
      simp only [List.map_cons, List.filter_cons]
      rw [if_pos (by simp [hx])]
      have hsplit : (xs.map instKey).filter
          (fun k => decide (k ∉ instKey x :: seen)) =
          ((xs.map instKey).filter (fun k => decide (k ∉ seen))).filter
            (fun k => decide (k ≠ instKey x)) := by
        rw [List.filter_filter]
        apply List.filter_congr
        intro a _
        by_cases h1 : a = instKey x <;> by_cases h2 : a ∈ seen <;>
          simp [h1, h2]
      rw [List.length_cons, ih (instKey x :: seen), hsplit,
        dedup_length_cons_filter]

theorem mergeInstancesList_length (l : List (Option Inst)) :
    (mergeInstancesList l).length = (l.map instKey).dedup.length := by
  rw [mergeInstancesList, mergeLoop_length l []]
  have hfil : (l.map instKey).filter (fun k => decide (k ∉ ([] : List (Option Int)))) =
      l.map instKey := by
    apply List.filter_eq_self.2
    intro a _
    simp
  rw [hfil]

theorem processQueryResultRows_length (meta : ModelMeta) (rows : List Row) :
    (processQueryResultRows meta rows).length =
      (rows.map (fun row => List.lookup meta.pkname row)).dedup.length := by
  unfold processQueryResultRows
  cases rows
  case nil => rfl
  case cons r rs =>
    simp only [List.map_cons, List.isEmpty_cons, Bool.false_eq_true,
      if_false]
    rw [mergeInstancesList_length]
    have hmap : List.map instKey
        (fromRow meta r :: List.map (fromRow meta) rs) =
        List.lookup meta.pkname r ::
          List.map (fun row => List.lookup meta.pkname row) rs := by
      simp only [List.map_cons, List.map_map, instKey_fromRow]
      congr 1
      exact List.map_congr_left (fun row _ => by
        simp [Function.comp, instKey_fromRow])
    rw [hmap]

theorem fetchAll_nil_of_matched_nil (table : List Row) (e : SelectExpr)
    (h : table.filter (fun row => e.rowMatches row) = []) :
    fetchAll table e = [] := by
  cases hl : e.selLimit <;> simp [fetchAll, h, hl]

theorem fetchAll_no_limit (table : List Row) (e : SelectExpr)
    (hl : e.selLimit = none) (ho : e.selOffset = none) :
    fetchAll table e = List.insertionSort (rowLe e.selOrderBys)
      (table.filter (fun row => e.rowMatches row)) := by
  simp [fetchAll, hl, ho]

theorem singleResultPipeline_noMatch (qs : QuerySet) (st : Store)
    (e : SelectExpr) (table : List Row) (h : fetchAll table e = []) :
    qs.singleResultPipeline st e table = Except.error Err.noMatch := by
  simp [QuerySet.singleResultPipeline, h, processQueryResultRows,
    checkAndExtract, checkSingleResultRowsCount, prefetchRelatedModels]

theorem mergeLoop_mem {x : Option Inst} (l : List (Option Inst)) :
    ∀ seen, x ∈ mergeLoop seen l → x ∈ l := by
  induction l
  case nil => intro seen h; cases h
  case cons a rest ih =>
    intro seen h
    rw [mergeLoop] at h
    by_cases ha : instKey a ∈ seen
    · rw [if_pos ha] at h
      exact List.mem_cons_of_mem a (ih seen h)
    · rw [if_neg ha] at h
      rcases List.mem_cons.1 h with hh | ht
      · exact hh ▸ List.mem_cons_self a rest
      · exact List.mem_cons_of_mem a (ih _ ht)

theorem checkSingle_multi (ps : List (Option Inst)) (i : Inst)
    (hhead : ps.head? = some (some i)) (hlen : 1 < ps.length) :
    checkSingleResultRowsCount ps = some Err.multipleMatches := by
  cases ps
  case nil => cases hhead
  case cons a t =>
    have ha : a = some i := by
      simpa using hhead
    subst ha
    rw [checkSingleResultRowsCount, if_neg (by simp), if_pos hlen]

theorem processQueryResultRows_mem {meta : ModelMeta} {rows : List Row}
    {x : Option Inst} (h : x ∈ processQueryResultRows meta rows) :
    ∃ row ∈ rows, x = fromRow meta row := by
  unfold processQueryResultRows at h
  by_cases he : (rows.map (fromRow meta)).isEmpty
  · rw [if_pos he] at h
    obtain ⟨row, hrow, hx⟩ := List.mem_map.1 h
    exact ⟨row, hrow, hx.symm⟩
  · rw [if_neg he] at h
    obtain ⟨row, hrow, hx⟩ := List.mem_map.1 (mergeLoop_mem _ [] h)
    exact ⟨row, hrow, hx.symm⟩

theorem singleResultPipeline_multi (qs : QuerySet) (st : Store)
    (e : SelectExpr) (table : List Row) (i : Inst)
    (hhead : (processQueryResultRows qs.model_cls
      (fetchAll table e)).head? = some (some i))
    (hlen : 1 < (processQueryResultRows qs.model_cls
      (fetchAll table e)).length) :
    qs.singleResultPipeline st e table = Except.error Err.multipleMatches := by
  have hc := checkSingle_multi _ i hhead hlen
  simp [QuerySet.singleResultPipeline, prefetchRelatedModels,
    checkAndExtract, hc]

/-- Claim C4: on a filtered descriptor without limit and offset, get and first
fail with the NoMatch error kind when the query matches no row, get fails
with the MultipleMatches error kind when the matched rows carry two or more
distinct primary keys after reconciliation, and the shared single-result
check both operations run maps any reconciled result holding more than a
single instance to MultipleMatches: the failure kinds are distinguishable. -/
theorem C4_get_first_not_found_and_ambiguous (qs : QuerySet) (st : Store)
    (table : List Row)
    (hfilters : (st.getClauses qs.filter_clauses).isEmpty = false)
    (hlimit : qs.limit_count = none) (hoffset : qs.query_offset = none)
    (hpk : ∀ row ∈ table,
      (List.lookup qs.model_cls.pkname row).isSome = true) :
    (qs.matchedRows st table = [] →
      qs.getRun st table = Except.error Err.noMatch ∧
      qs.firstRun st table = Except.error Err.noMatch) ∧
    (2 ≤ ((qs.matchedRows st table).map (fun row =>
        List.lookup qs.model_cls.pkname row)).dedup.length →
      qs.getRun st table = Except.error Err.multipleMatches) ∧
    (∀ (ps : List (Option Inst)) (i : Inst), ps.head? = some (some i) →
      1 < ps.length →
      checkSingleResultRowsCount ps = some Err.multipleMatches) := by
  refine ⟨?_, ?_, fun ps i h1 h2 => checkSingle_multi ps i h1 h2⟩
  · intro hm
    constructor
    · simp only [QuerySet.getRun, hfilters, Bool.false_eq_true, if_false]
      exact singleResultPipeline_noMatch _ _ _ _
        (fetchAll_nil_of_matched_nil _ _ hm)
    · exact singleResultPipeline_noMatch qs st (qs.firstExpr st) table
        (fetchAll_nil_of_matched_nil table (qs.firstExpr st) hm)
  · intro hcount
    have hfetch : fetchAll table (qs.build_select_expression st none none none) =
        List.insertionSort
          (rowLe (qs.build_select_expression st none none none).selOrderBys)
          (qs.matchedRows st table) :=
      fetchAll_no_limit table _ hlimit hoffset
    have hlen : 1 < (processQueryResultRows qs.model_cls
        (fetchAll table (qs.build_select_expression st none none none))).length := by
      rw [hfetch, processQueryResultRows_length]
      have hp : List.Perm
          (List.insertionSort
            (rowLe (qs.build_select_expression st none none none).selOrderBys)
            (qs.matchedRows st table)) (qs.matchedRows st table) :=
        List.perm_insertionSort _ _
      rw [((hp.map (fun row =>
        List.lookup qs.model_cls.pkname row)).dedup).length_eq]
      exact hcount
    have hhead : ∃ i, (processQueryResultRows qs.model_cls
        (fetchAll table (qs.build_select_expression st none none none))).head? =
        some (some i) := by
      cases hpr : processQueryResultRows qs.model_cls
        (fetchAll table (qs.build_select_expression st none none none))
      case nil => rw [hpr] at hlen; simp at hlen
      case cons a t =>
        have hmem : a ∈ processQueryResultRows qs.model_cls
            (fetchAll table (qs.build_select_expression st none none none)) := by
          rw [hpr]; exact List.mem_cons_self a t
        obtain ⟨row, hrow, hax⟩ := processQueryResultRows_mem hmem
        have hrowt : row ∈ table := by
          rw [hfetch] at hrow
          exact List.mem_of_mem_filter
            ((List.perm_insertionSort _ _).mem_iff.1 hrow)
        obtain ⟨v, hv⟩ := Option.isSome_iff_exists.1 (hpk row hrowt)
        refine ⟨⟨some v, row⟩, ?_⟩
        simp only [List.head?_cons, Option.some.injEq]
        rw [hax]
        simp [fromRow, hv]
    obtain ⟨i, hhead⟩ := hhead
    have hpipe := singleResultPipeline_multi qs st
      (qs.build_select_expression st none none none) table i hhead hlen
    simp only [QuerySet.getRun, hfilters, Bool.false_eq_true, if_false]
    exact hpipe

/-- Claim C4 witness: on the filtered descriptor, get and first raise NoMatch
on an empty table, and get raises MultipleMatches on a table with two
distinct matching root rows. -/
theorem C4_get_first_not_found_and_ambiguous_witness :
    demoFiltered.1.getRun demoFiltered.2 [] = Except.error Err.noMatch ∧
    demoFiltered.1.firstRun demoFiltered.2 [] = Except.error Err.noMatch ∧
    demoFiltered.1.getRun demoFiltered.2
        [[("id", 1), ("name", 5)], [("id", 2), ("name", 5)]] =
      Except.error Err.multipleMatches := by
  obtain ⟨hempty, _, _⟩ := C4_get_first_not_found_and_ambiguous
    demoFiltered.1 demoFiltered.2 [] (by decide) (by decide) (by decide)
    (by decide)
  obtain ⟨hnm, hfm⟩ := hempty (by decide)
  obtain ⟨_, hmulti, _⟩ := C4_get_first_not_found_and_ambiguous
    demoFiltered.1 demoFiltered.2
    [[("id", 1), ("name", 5)], [("id", 2), ("name", 5)]] (by decide)
    (by decide) (by decide) (by decide)
  exact ⟨hnm, hfm, hmulti (by decide)⟩

theorem parseSpec_desc (s : String) : parseSpec ("-" ++ s) = (true, s) := rfl

theorem checkAndExtract_ne_multi (ps : List (Option Inst))
    (h : ps.length ≤ 1) :
    checkAndExtract ps ≠ Except.error Err.multipleMatches := by
  unfold checkAndExtract checkSingleResultRowsCount
  by_cases h1 : ps.isEmpty = true ∨ ps.head? = some none
  · rw [if_pos h1]
    simp
  · rw [if_neg h1, if_neg (by omega)]
    cases hh : ps.head? with
    | none => simp
    | some a =>
      cases a with
      | none => simp
      | some i => simp

theorem checkAndExtract_ok {ps : List (Option Inst)} {i : Inst}
    (h : checkAndExtract ps = Except.ok i) : ps.head? = some (some i) := by
  unfold checkAndExtract at h
  cases hc : checkSingleResultRowsCount ps with
  | some e => rw [hc] at h; cases h
  | none =>
    rw [hc] at h
    cases hh : ps.head? with
    | none => rw [hh] at h; cases h
    | some a =>
      cases a with
      | none => rw [hh] at h; cases h
      | some j =>
        rw [hh] at h
        cases h
        rfl

theorem processQueryResultRows_length_le (meta : ModelMeta)
    (rows : List Row) :
    (processQueryResultRows meta rows).length ≤ rows.length := by
  rw [processQueryResultRows_length]
  calc ((rows.map (fun row => List.lookup meta.pkname row)).dedup).length
      ≤ (rows.map (fun row => List.lookup meta.pkname row)).length :=
        (List.dedup_sublist _).length_le
    _ = rows.length := List.length_map _ _

theorem singleResultPipeline_ne_multi (qs : QuerySet) (st : Store)
    (e : SelectExpr) (table : List Row)
    (h : (processQueryResultRows qs.model_cls (fetchAll table e)).length ≤ 1) :
    qs.singleResultPipeline st e table ≠ Except.error Err.multipleMatches := by
  unfold QuerySet.singleResultPipeline
  simp only [prefetchRelatedModels, ite_self]
  exact checkAndExtract_ne_multi _ h

theorem singleResultPipeline_ok {qs : QuerySet} {st : Store} {e : SelectExpr}
    {table : List Row} {i : Inst}
    (h : qs.singleResultPipeline st e table = Except.ok i) :
    (processQueryResultRows qs.model_cls (fetchAll table e)).head? =
      some (some i) := by
  unfold QuerySet.singleResultPipeline at h
  simp only [prefetchRelatedModels, ite_self] at h
  exact checkAndExtract_ok h

theorem sorted_head_max (specs : List String) (l : List Row) (s0 : Row)
    (stail : List Row)
    (h : List.insertionSort (rowLe specs) l = s0 :: stail) :
    ∀ row ∈ l, rowLe specs s0 row := by
  have hs : List.Sorted (rowLe specs) (List.insertionSort (rowLe specs) l) :=
    List.sorted_insertionSort _ l
  rw [h] at hs
  intro row hrow
  have hmem : row ∈ s0 :: stail := by
    rw [← h]
    exact (List.perm_insertionSort (rowLe specs) l).mem_iff.2 hrow
  rcases List.mem_cons.1 hmem with h0 | ht
  · subst h0
    exact (total_of (rowLe specs) row row).elim id id
  · exact (List.sorted_cons.1 hs).1 row ht

theorem rowLe_desc_pk (pkname : String) (rest : List String) (a b : Row)
    (h : rowLe (("-" ++ pkname) :: rest) a b) :
    b.lookupD pkname ≤ a.lookupD pkname := by
  unfold rowLe specLe at h
  simp only [parseSpec_desc] at h
  by_cases heq : a.lookupD pkname = b.lookupD pkname
  · exact le_of_eq heq.symm
  · rw [if_neg heq] at h
    simp only [if_true] at h
    exact le_of_lt (of_decide_eq_true h)

/-- Claim C9: with no filter clauses (and no keyword criteria), get compiles
its query with a row limit of 1 ordered by the primary key descending
prepended to the descriptor's own ordering — hence it never raises
MultipleMatches, and a returned instance carries the greatest primary key
among the matching rows — while first compiles with a row limit of 1 ordered
by the primary key ascending prepended to the descriptor's own ordering. -/
theorem C9_no_filter_get_first_compile (qs : QuerySet) (st : Store)
    (table : List Row)
    (hfilters : (st.getClauses qs.filter_clauses).isEmpty = true)
    (hoffset : qs.query_offset = none) :
    (qs.getNoFilterExpr st).selLimit = some 1 ∧
    (qs.getNoFilterExpr st).selOrderBys =
      ("-" ++ qs.model_cls.pkname) :: st.getStrs qs.order_bys ∧
    (qs.firstExpr st).selLimit = some 1 ∧
    (qs.firstExpr st).selOrderBys =
      qs.model_cls.pkname :: st.getStrs qs.order_bys ∧
    qs.getRun st table ≠ Except.error Err.multipleMatches ∧
    (∀ (i : Inst) (v : Int), qs.getRun st table = Except.ok i →
      i.pk = some v →
      ∀ row ∈ table, (qs.getNoFilterExpr st).rowMatches row = true →
        row.lookupD qs.model_cls.pkname ≤ v) := by
  have hrun : qs.getRun st table =
      qs.singleResultPipeline st (qs.getNoFilterExpr st) table := by
    simp only [QuerySet.getRun, hfilters, if_true]
  have hfetch1 : fetchAll table (qs.getNoFilterExpr st) =
      ((List.insertionSort
        (rowLe (("-" ++ qs.model_cls.pkname) :: st.getStrs qs.order_bys))
        (table.filter (fun r =>
          (qs.getNoFilterExpr st).rowMatches r))).drop
            ((qs.getNoFilterExpr st).selOffset.getD 0)).take 1 := rfl
  refine ⟨rfl, rfl, rfl, rfl, ?_, ?_⟩
  · rw [hrun]
    apply singleResultPipeline_ne_multi
    refine Nat.le_trans (processQueryResultRows_length_le _ _) ?_
    rw [hfetch1]
    exact List.length_take_le 1 _
  · intro i v hok hpkv row hrow hmatch
    rw [hrun] at hok
    have hhead := singleResultPipeline_ok hok
    have hmem : some i ∈ processQueryResultRows qs.model_cls
        (fetchAll table (qs.getNoFilterExpr st)) :=
      List.mem_of_mem_head? (Option.mem_def.2 hhead)
    obtain ⟨row0, hrow0, heq0⟩ := processQueryResultRows_mem hmem
    have hoff : (qs.getNoFilterExpr st).selOffset = none := hoffset
    have hfetch : fetchAll table (qs.getNoFilterExpr st) =
        (List.insertionSort
          (rowLe (("-" ++ qs.model_cls.pkname) :: st.getStrs qs.order_bys))
          (table.filter (fun r =>
            (qs.getNoFilterExpr st).rowMatches r))).take 1 := by
      rw [hfetch1, hoff]
      simp
    rw [hfetch] at hrow0
    cases hsort : List.insertionSort
        (rowLe (("-" ++ qs.model_cls.pkname) :: st.getStrs qs.order_bys))
        (table.filter (fun r => (qs.getNoFilterExpr st).rowMatches r)) with
    | nil =>
      rw [hsort] at hrow0
      simp at hrow0
    | cons s0 stail =>
      rw [hsort] at hrow0
      simp [List.take] at hrow0
      rw [hrow0] at heq0
      have hle : rowLe
          (("-" ++ qs.model_cls.pkname) :: st.getStrs qs.order_bys) s0 row :=
        sorted_head_max _ _ s0 stail hsort row
          (List.mem_filter.2 ⟨hrow, hmatch⟩)
      have hpkle := rowLe_desc_pk qs.model_cls.pkname _ s0 row hle
      unfold fromRow at heq0
      cases hlook : List.lookup qs.model_cls.pkname s0 with
      | none => rw [hlook] at heq0; cases heq0
      | some v0 =>
        rw [hlook] at heq0
        have hi : i = ⟨some v0, s0⟩ := by
          cases heq0
          rfl
        have hv : v0 = v := by
          rw [hi] at hpkv
          cases hpkv
          rfl
        have hs0 : s0.lookupD qs.model_cls.pkname = v := by
          rw [Row.lookupD, hlook, hv]
          rfl
        rw [hs0] at hpkle
        exact hpkle

/-- Claim C9 witness: on a fresh descriptor over a two-row table the compiled
no-filter get expression limits to one row, get never reports
MultipleMatches and returns the row with the greatest primary key (id 2), so
the other row's primary key is bounded by it. -/
theorem C9_no_filter_get_first_compile_witness :
    ((rootQuerySet Store.empty exampleMeta).1.getNoFilterExpr
        (rootQuerySet Store.empty exampleMeta).2).selLimit = some 1 ∧
    ((rootQuerySet Store.empty exampleMeta).1.firstExpr
        (rootQuerySet Store.empty exampleMeta).2).selLimit = some 1 ∧
    (rootQuerySet Store.empty exampleMeta).1.getRun
        (rootQuerySet Store.empty exampleMeta).2
        [[("id", 1), ("name", 5)], [("id", 2), ("name", 6)]] ≠
      Except.error Err.multipleMatches ∧
    Row.lookupD [("id", 1), ("name", 5)] "id" ≤ 2 := by
  obtain ⟨h1, _, h3, _, h5, h6⟩ := C9_no_filter_get_first_compile
    (rootQuerySet Store.empty exampleMeta).1
    (rootQuerySet Store.empty exampleMeta).2
    [[("id", 1), ("name", 5)], [("id", 2), ("name", 6)]] (by decide) rfl
  refine ⟨h1, h3, h5, ?_⟩
  exact h6 ⟨some 2, [("id", 2), ("name", 6)]⟩ 2 (by decide) rfl
    [("id", 1), ("name", 5)] (by decide) (by decide)
